import Mathlib

/-!
Shallow embedding of the jupyter-mcp-server repository
(`src/jupyter_mcp_server/server.py` and the streamlit dashboard page
`src/streamlit_app/pages/01_📊_Dashboard.py`) in Lean 4.

The notebook document (the Yjs `ycells` array) is modelled as a `List Cell`;
every MCP tool becomes a pure function from a `ServerState` to a triple
`result × ServerState × List Event`, where the `Event` trace records the
observable effects of the Python coroutine in order: opening and closing a
managed notebook connection (`notebook_connection`), `asyncio.sleep` calls,
transaction boundaries (`ydoc.ydoc.transaction()`), the individual CRDT
container mutations (insert/delete on the cell array, edits of a cell's
source `YText`, clearing an outputs `YArray`, setting `execution_count`),
and kernel execution dispatches.  The model takes the connection and
synchronisation steps of `notebook_connection` to succeed (their failure
raises `ConnectionError` in the source and performs no document mutation);
kernel liveness and the success of a kernel-client restart are inputs
(`ServerState.kernelAlive`, `Env.restartOk`).
-/

namespace JupyterMCP

/-! ### Character-list string helpers (Python `in`, `startswith`, slicing) -/

/-- Does the character list `l` start with the pattern `p`? -/
def startsWithCs : List Char → List Char → Bool
  | [], _ => true
  | _ :: _, [] => false
  | p :: ps, c :: cs => p == c && startsWithCs ps cs

/-- Does the pattern `p` occur as a contiguous sublist of `l`?
Mirrors Python's substring test `p in l`. -/
def hasSubCs (p : List Char) : List Char → Bool
  | [] => startsWithCs p []
  | c :: cs => startsWithCs p (c :: cs) || hasSubCs p cs

/-- Python `pat in s` (substring containment). -/
def strContains (s pat : String) : Bool :=
  hasSubCs pat.data s.data

/-- Python `s.startswith(pat)`. -/
def strStarts (s pat : String) : Bool :=
  startsWithCs pat.data s.data

/-- Python `posixpath.isabs`: the path is absolute iff it starts with `/`. -/
def pyIsAbs (s : String) : Bool :=
  strStarts s "/"

/-- Python `str.capitalize()`: first character upper-cased, the rest
lower-cased. -/
def pyCapitalize (s : String) : String :=
  match s.data with
  | [] => ""
  | c :: rest => String.mk (c.toUpper :: rest.map Char.toLower)

/-- Python `list.insert(idx, a)`: inserts before position `idx`, appending
when `idx` is at or beyond the end of the list. -/
def pyInsert {α : Type} : List α → Nat → α → List α
  | [], _, a => [a]
  | l, 0, a => a :: l
  | c :: l, i + 1, a => c :: pyInsert l i a

/-! ### Python `str.splitlines(keepends=True)` -/

/-- The line-boundary characters of CPython `str.splitlines` (with `\r\n`
treated as a single boundary by the splitter itself), by code point:
LF 10, CR 13, VT 11, FF 12, FS 28, GS 29, RS 30, NEL 133,
LINE SEPARATOR 8232, PARAGRAPH SEPARATOR 8233. -/
def isLineBreakChar (c : Char) : Bool :=
  c.toNat == 10 || c.toNat == 13 || c.toNat == 11 || c.toNat == 12 ||
  c.toNat == 28 || c.toNat == 29 || c.toNat == 30 || c.toNat == 133 ||
  c.toNat == 8232 || c.toNat == 8233

/-- Worker for `splitlinesKE`: `acc` holds the current (reversed) line; a
`\r` directly followed by `\n` is one boundary. -/
def splitlinesCs : List Char → List Char → List (List Char)
  | acc, [] => if acc.isEmpty then [] else [acc.reverse]
  | acc, '\r' :: '\n' :: cs => (acc.reverse ++ ['\r', '\n']) :: splitlinesCs [] cs
  | acc, c :: cs =>
    if isLineBreakChar c then
      (acc.reverse ++ [c]) :: splitlinesCs [] cs
    else
      splitlinesCs (c :: acc) cs

/-- Python `s.splitlines(True)` (keepends). -/
def splitlinesKE (s : String) : List String :=
  (splitlinesCs [] s.data).map String.mk

/-! ### The notebook data model -/

/-- A Jupyter cell output dictionary, with the fields read by
`extract_output`: `output_type`, `text` (for streams), the `data`
mime-bundle (a key/value list), and `ename`/`evalue` for errors. -/
structure JOutput where
  output_type : Option String
  text : String
  data : List (String × String)
  ename : Option String
  evalue : Option String
  deriving DecidableEq

/-- One notebook cell of the Yjs `ycells` array.  A markdown cell has no
`outputs`/`execution_count` entries in the Python dict; since every read of
those keys in `server.py` goes through `.get` with defaults `[]`/`None`, they
are represented here by `[]` and `none`. -/
structure Cell where
  cell_type : String
  source : String
  outputs : List JOutput
  execution_count : Option Int
  deriving DecidableEq

/-- A placeholder cell used as the default of guarded list lookups (every
lookup in the embedding is behind the tool's own bounds check). -/
def emptyCell : Cell :=
  { cell_type := "", source := "", outputs := [], execution_count := none }

/-- The mutable server-side state: the target notebook path (module global
`NOTEBOOK_PATH`), the cell array of the synced notebook document, and
whether the global kernel client is alive (`kernel.is_alive()`). -/
structure ServerState where
  notebookPath : String
  cells : List Cell
  kernelAlive : Bool
  deriving DecidableEq

/-- Environmental nondeterminism: whether a kernel-client restart attempt
(`KernelClient(...); kernel.start()`) would succeed. -/
structure Env where
  restartOk : Bool
  deriving DecidableEq

/-! ### Effect traces -/

/-- Observable effects of one tool invocation, in program order. -/
inductive Event where
  | connStart (modify : Bool)
  | connStop (modify : Bool)
  | sleepEv (seconds : ℚ)
  | txBegin
  | txEnd
  | cellsInsert (idx : Nat)
  | cellsDelete (idx : Nat)
  | textDelete (idx : Nat)
  | textInsert (idx : Nat)
  | outputsClear (idx : Nat)
  | setExecCount (idx : Nat)
  | dispatchExec (idx : Nat)
  deriving DecidableEq

/-- Delay after a modification before closing the connection
(`MODIFY_SYNC_DELAY = 0.5` in `server.py`). -/
def MODIFY_SYNC_DELAY : ℚ := 1 / 2

/-- Default wait before reading an output (`OUTPUT_WAIT_DELAY`, whose
default configuration value is `0.5`). -/
def OUTPUT_WAIT_DELAY : ℚ := 1 / 2

/-- The `notebook_connection` async context manager: start and sync the
client, run the body, and in the `finally` block sleep `MODIFY_SYNC_DELAY`
(only when `modify` is set) before stopping the connection. -/
def withConn {α : Type} (modify : Bool) (s : ServerState)
    (body : ServerState → α × ServerState × List Event) :
    α × ServerState × List Event :=
  let r := body s
  (r.1, r.2.1,
    Event.connStart modify ::
      (r.2.2 ++ (if modify then [Event.sleepEv MODIFY_SYNC_DELAY] else []) ++
        [Event.connStop modify]))

/-! ### `extract_output` -/

/-- Lookup in the mime-bundle (Python `"k" in data` / `data["k"]`). -/
def lookupData (d : List (String × String)) (k : String) : Option String :=
  (d.find? (fun p => p.1 == k)).map (fun p => p.2)

/-- Python repr of a list of string keys, as produced by
`f"{list(data.keys())}"`. -/
def pyKeysRepr (l : List String) : String :=
  "[" ++ String.intercalate ", " (l.map (fun k => "'" ++ k ++ "'")) ++ "]"

/-- The `extract_output` helper of `server.py` (lines 85-105). -/
def extract_output (o : JOutput) : String :=
  match o.output_type with
  | some t =>
    if t == "stream" then o.text
    else if t == "display_data" || t == "execute_result" then
      match lookupData o.data "text/plain" with
      | some v => v
      | none =>
        if (lookupData o.data "text/html").isSome then "[HTML Output]"
        else if (lookupData o.data "image/png").isSome then "[Image Output (PNG)]"
        else "[" ++ t ++ " Data: keys=" ++ pyKeysRepr (o.data.map (fun p => p.1)) ++ "]"
    else if t == "error" then
      "Error: " ++ o.ename.getD "Unknown" ++ ": " ++ o.evalue.getD ""
    else "[Unknown output type: " ++ t ++ "]"
  | none => "[Unknown output type: None]"

/-! ### `_parse_index_from_message` -/

/-- Decimal value of a digit string (how the parsed group `(\d+)` is read by
`int(...)`). -/
def digitsVal (l : List Char) : Nat :=
  l.foldl (fun a c => a * 10 + (c.toNat - 48)) 0

/-- Scanner for `re.search(r"index (\d+)", message)`: find the first
position where `"index "` is followed by at least one digit and return the
value of that digit run. -/
def findIdxNum : List Char → Option Nat
  | [] => none
  | c :: cs =>
    if startsWithCs ("index ").data (c :: cs) then
      let ds := ((c :: cs).drop 6).takeWhile Char.isDigit
      if ds.isEmpty then findIdxNum cs else some (digitsVal ds)
    else findIdxNum cs

/-- The `_parse_index_from_message` helper of `server.py` (lines 70-82). -/
def _parse_index_from_message (message : String) : Option Nat :=
  findIdxNum message.data

/-! ### MCP tools

Each tool returns its result string together with the post-state and the
effect trace.  Result strings are built exactly as the f-strings of
`server.py` build them. -/

/-- The recurring out-of-bounds message
`f"[Error: Cell index {cell_index} out of bounds (0-{num_cells-1})]"`. -/
def oobMsg (cell_index : Int) (num_cells : Nat) : String :=
  "[Error: Cell index " ++ toString cell_index ++ " out of bounds (0-" ++
    toString ((num_cells : Int) - 1) ++ ")]"

/-- `set_target_notebook` (lines 340-360): rejects absolute paths and paths
containing `..`, otherwise replaces the global `NOTEBOOK_PATH`. -/
def set_target_notebook (new_notebook_path : String) (s : ServerState) :
    String × ServerState :=
  if pyIsAbs new_notebook_path || strContains new_notebook_path ".." then
    ("[Error: Invalid path '" ++ new_notebook_path ++ "'. Must be relative, no '..'.]", s)
  else
    ("Target notebook path set to '" ++ new_notebook_path ++ "'.",
     { s with notebookPath := new_notebook_path })

/-- A fresh code cell as built by `add_cell` (YText source, fresh metadata,
empty outputs `YArray`, `execution_count = None`). -/
def newCodeCell (content : String) : Cell :=
  { cell_type := "code", source := content, outputs := [], execution_count := none }

/-- A fresh markdown cell as built by `add_cell` (no outputs or
execution-count entries; see `Cell`). -/
def newMarkdownCell (content : String) : Cell :=
  { cell_type := "markdown", source := content, outputs := [], execution_count := none }

/-- `insert_index = num_cells if index is None or not (0 <= index <= num_cells)
else index` (lines 386 and 493). -/
def computeInsertIndex (index : Option Int) (num_cells : Nat) : Nat :=
  match index with
  | none => num_cells
  | some i => if 0 ≤ i ∧ i ≤ (num_cells : Int) then i.toNat else num_cells

/-- `add_cell` (lines 363-415). -/
def add_cell (content : String) (cell_type : String) (index : Option Int)
    (s : ServerState) : String × ServerState × List Event :=
  if !(cell_type == "code" || cell_type == "markdown") then
    ("[Error: Invalid cell_type '" ++ cell_type ++ "'. Must be 'code' or 'markdown'.]",
     s, [])
  else
    withConn true s (fun s0 =>
      let num_cells := s0.cells.length
      let insert_index := computeInsertIndex index num_cells
      let newCell := if cell_type == "code" then newCodeCell content
                     else newMarkdownCell content
      (pyCapitalize cell_type ++ " cell added at index " ++ toString insert_index ++ ".",
       { s0 with cells := pyInsert s0.cells insert_index newCell },
       [Event.txBegin, Event.cellsInsert insert_index, Event.txEnd]))

/-- The fixed cell content of `add_cell_create_clickzetta_session`
(an f-string with `config_file` interpolated; `\\n` in the Python source
stands for a literal backslash-n inside the generated code). -/
def clickzettaContent (config_file : String) : String :=
  "from clickzetta.zettapark.session import Session\nfrom clickzetta.zettapark.session " ++
  "import DataFrame\nimport clickzetta.zettapark.functions as F\nimport " ++
  "clickzetta.zettapark.types as T\nimport json\n\n# 从配置文件中读取参数\nwith open('" ++
  config_file ++
  "', 'r') as config_file:\n    config = json.load(config_file)\n\nprint(\"正在连接到云器Lakehouse.....\\n\")\n" ++
  "# 创建会话\nsession = Session.builder.configs(config).create()\n" ++
  "print(\"连接成功！以下是session的上下文信息。现在可以通过session.sql('sql code').to_pandas()的方式使用刚创建的session在Notebook里执行SQL获得查询结果...\\n\")\n\n" ++
  "session.sql(\"SELECT current_instance_id(), current_workspace(), current_workspace_id(), current_schema(), current_user(), current_user_id(), current_vcluster()\").to_pandas()\n"

/-- `add_cell_create_clickzetta_session` (lines 417-519): identical to
`add_cell` except that only `cell_type = "code"` is accepted and the content
is the fixed Clickzetta session bootstrap code. -/
def add_cell_create_clickzetta_session (cell_type : String) (index : Option Int)
    (config_file : String) (s : ServerState) : String × ServerState × List Event :=
  if cell_type != "code" then
    ("[Error: Invalid cell_type '" ++ cell_type ++
       "'. Only 'code' is supported for this operation.]", s, [])
  else
    let content := clickzettaContent config_file
    withConn true s (fun s0 =>
      let num_cells := s0.cells.length
      let insert_index := computeInsertIndex index num_cells
      (pyCapitalize cell_type ++ " cell added at index " ++ toString insert_index ++ ".",
       { s0 with cells := pyInsert s0.cells insert_index (newCodeCell content) },
       [Event.txBegin, Event.cellsInsert insert_index, Event.txEnd]))

/-- `add_code_cell_on_bottom` (lines 595-618).  The library call
`notebook.add_code_cell(content)` is modelled from its documented behaviour:
append a code cell at the end of the document and return its index. -/
def add_code_cell_on_bottom (cell_content : String) (s : ServerState) :
    String × ServerState × List Event :=
  withConn true s (fun s0 =>
    let cell_index := s0.cells.length
    ("Code cell added at index " ++ toString cell_index ++ ".",
     { s0 with cells := s0.cells ++ [newCodeCell cell_content] },
     [Event.cellsInsert cell_index]))

/-- The kernel-liveness check and restart attempt shared by `execute_cell`
(lines 635-646) and `execute_all_cells` (lines 690-700): when the global
kernel client is not alive the code rebuilds it, starts it, sleeps 0.5 s and
checks `is_alive()` again; a failed attempt is modelled as that check still
being false. -/
def kernelEnsure (env : Env) (s : ServerState) : Bool × ServerState × List Event :=
  if s.kernelAlive then (true, s, [])
  else if env.restartOk then
    (true, { s with kernelAlive := true }, [Event.sleepEv (1 / 2)])
  else (false, s, [Event.sleepEv (1 / 2)])

/-- `execute_cell` (lines 621-675): ensure the kernel client, then inside a
read-only connection validate the index and cell type and dispatch the
execution request (fire-and-forget, so the document state is unchanged). -/
def execute_cell (cell_index : Int) (env : Env) (s : ServerState) :
    String × ServerState × List Event :=
  let k := kernelEnsure env s
  if !k.1 then
    ("[Error: Kernel client connection failed for cell " ++ toString cell_index ++ ".]",
     k.2.1, k.2.2)
  else
    let r := withConn false k.2.1 (fun s0 =>
      let num_cells := s0.cells.length
      if ¬(0 ≤ cell_index ∧ cell_index < (num_cells : Int)) then
        (oobMsg cell_index num_cells, s0, [])
      else if (s0.cells.getD cell_index.toNat emptyCell).cell_type != "code" then
        ("[Error: Cell index " ++ toString cell_index ++ " is not a code cell]", s0, [])
      else
        ("Execution request sent for cell at index " ++ toString cell_index ++ ".",
         s0, [Event.dispatchExec cell_index.toNat]))
    (r.1, r.2.1, k.2.2 ++ r.2.2)

/-- The `for i, cell_data in enumerate(ycells)` loop of `execute_all_cells`
(lines 713-728): for each code cell call `execute_cell i` and sleep 0.05 s.
`execute_cell` never raises (it returns error strings), so the `except`
branch that would set `request_error` is unreachable and the two counters
`total_code_cells` and `cells_requested` advance together; the loop neither
changes the document nor the kernel state, so the state is passed through
unchanged.  Returns `(total_code_cells, cells_requested, trace)`. -/
def execAllLoop (env : Env) (s1 : ServerState) : Nat → List Cell → Nat × Nat × List Event
  | _, [] => (0, 0, [])
  | i, c :: rest =>
    if c.cell_type == "code" then
      let r := execute_cell (Int.ofNat i) env s1
      let t := execAllLoop env s1 (i + 1) rest
      (t.1 + 1, t.2.1 + 1, r.2.2 ++ Event.sleepEv (1 / 20) :: t.2.2)
    else
      execAllLoop env s1 (i + 1) rest

/-- `execute_all_cells` (lines 678-738). -/
def execute_all_cells (env : Env) (s : ServerState) : String × ServerState × List Event :=
  let k := kernelEnsure env s
  if !k.1 then
    ("[Error: Kernel client connection failed. Cannot execute cells.]", k.2.1, k.2.2)
  else
    let r := withConn false k.2.1 (fun s0 =>
      let t := execAllLoop env s0 0 s0.cells
      ("Successfully sent execution requests for all " ++ toString t.1 ++
         " code cells found.", s0, t.2.2))
    (r.1, r.2.1, k.2.2 ++ r.2.2)

/-- `get_cell_output` (lines 741-788): optional wait, then a read-only
lookup of the cell's outputs. -/
def get_cell_output (cell_index : Int) (wait_seconds : ℚ) (s : ServerState) :
    String × ServerState × List Event :=
  let pre : List Event := if 0 < wait_seconds then [Event.sleepEv wait_seconds] else []
  let r := withConn false s (fun s0 =>
    let num_cells := s0.cells.length
    if ¬(0 ≤ cell_index ∧ cell_index < (num_cells : Int)) then
      (oobMsg cell_index num_cells, s0, [])
    else
      let cell := s0.cells.getD cell_index.toNat emptyCell
      if !cell.outputs.isEmpty then
        let joined := (String.intercalate "\n" (cell.outputs.map extract_output)).trim
        (if joined != "" then joined else "[Cell output is empty]", s0, [])
      else if cell.cell_type == "code" then
        match cell.execution_count with
        | some _ => ("[Cell executed, but has no output]", s0, [])
        | none => ("[Code cell not executed or has no output]", s0, [])
      else
        ("[Cannot get output from non-code cell]", s0, []))
  (r.1, r.2.1, pre ++ r.2.2)

/-- `delete_cell` (lines 791-814). -/
def delete_cell (cell_index : Int) (s : ServerState) : String × ServerState × List Event :=
  withConn true s (fun s0 =>
    let num_cells := s0.cells.length
    if ¬(0 ≤ cell_index ∧ cell_index < (num_cells : Int)) then
      (oobMsg cell_index num_cells, s0, [])
    else
      ("Cell at index " ++ toString cell_index ++ " deleted.",
       { s0 with cells := s0.cells.eraseIdx cell_index.toNat },
       [Event.txBegin, Event.cellsDelete cell_index.toNat, Event.txEnd]))

/-- `move_cell` (lines 817-851): delete then re-insert inside one
transaction. -/
def move_cell (from_index to_index : Int) (s : ServerState) :
    String × ServerState × List Event :=
  withConn true s (fun s0 =>
    let num_cells := s0.cells.length
    if ¬(0 ≤ from_index ∧ from_index < (num_cells : Int)) then
      ("[Error: from_index " ++ toString from_index ++ " out of bounds (0-" ++
         toString ((num_cells : Int) - 1) ++ ")]", s0, [])
    else if ¬(0 ≤ to_index ∧ to_index ≤ (num_cells : Int)) then
      ("[Error: to_index " ++ toString to_index ++ " out of bounds (0-" ++
         toString (num_cells : Int) ++ ")]", s0, [])
    else if from_index == to_index then
      ("Cell is already at index " ++ toString from_index ++ ".", s0, [])
    else
      let f := from_index.toNat
      let t := to_index.toNat
      let item := s0.cells.getD f emptyCell
      ("Cell moved from index " ++ toString from_index ++ " to " ++
         toString to_index ++ ".",
       { s0 with cells := pyInsert (s0.cells.eraseIdx f) t item },
       [Event.txBegin, Event.cellsDelete f, Event.cellsInsert t, Event.txEnd]))

/-- `split_cell` (lines 906-984). -/
def split_cell (cell_index : Int) (line_number : Int) (s : ServerState) :
    String × ServerState × List Event :=
  if line_number < 1 then ("[Error: line_number must be 1 or greater]", s, [])
  else
    withConn true s (fun s0 =>
      let num_cells := s0.cells.length
      if ¬(0 ≤ cell_index ∧ cell_index < (num_cells : Int)) then
        (oobMsg cell_index num_cells, s0, [])
      else
        let idx := cell_index.toNat
        let cell := s0.cells.getD idx emptyCell
        let source_lines := splitlinesKE cell.source
        if ¬(1 ≤ line_number ∧ line_number ≤ (source_lines.length : Int) + 1) then
          ("[Error: Line number " ++ toString line_number ++ " out of range (1-" ++
             toString (source_lines.length + 1) ++ ")]", s0, [])
        else
          let n := line_number.toNat
          let source_part1 := String.join (source_lines.take (n - 1))
          let source_part2 := String.join (source_lines.drop (n - 1))
          let new_cell_index := idx + 1
          let updated :=
            if cell.cell_type == "code" then
              { cell with source := source_part1, outputs := [], execution_count := none }
            else
              { cell with source := source_part1 }
          let newCell : Cell :=
            { cell_type := cell.cell_type, source := source_part2,
              outputs := [], execution_count := none }
          ("Cell " ++ toString cell_index ++ " split at line " ++ toString line_number ++
             ". New cell created at index " ++ toString new_cell_index ++ ".",
           { s0 with cells := pyInsert (s0.cells.set idx updated) new_cell_index newCell },
           [Event.txBegin, Event.textDelete idx, Event.textInsert idx] ++
             (if cell.cell_type == "code" then
               [Event.outputsClear idx, Event.setExecCount idx] else []) ++
             [Event.cellsInsert new_cell_index, Event.txEnd]))

/-- `edit_cell_source` (lines 1016-1045): replaces the cell's source
`YText` (a delete of the whole text followed by an insert) inside one
transaction. -/
def edit_cell_source (cell_index : Int) (new_content : String) (s : ServerState) :
    String × ServerState × List Event :=
  withConn true s (fun s0 =>
    let num_cells := s0.cells.length
    if ¬(0 ≤ cell_index ∧ cell_index < (num_cells : Int)) then
      (oobMsg cell_index num_cells, s0, [])
    else
      let idx := cell_index.toNat
      let cell := s0.cells.getD idx emptyCell
      ("Source updated for cell at index " ++ toString cell_index ++ ".",
       { s0 with cells := s0.cells.set idx { cell with source := new_content } },
       [Event.txBegin, Event.textDelete idx, Event.textInsert idx, Event.txEnd]))

/-- One entry of the `get_all_cells` result. -/
structure CellInfo where
  index : Nat
  cell_type : String
  source : String
  execution_count : Option Int
  deriving DecidableEq

/-- `get_all_cells` (lines 987-1013). -/
def get_all_cells (s : ServerState) : List CellInfo × ServerState × List Event :=
  withConn false s (fun s0 =>
    (s0.cells.enum.map (fun p =>
      { index := p.1, cell_type := p.2.cell_type, source := p.2.source,
        execution_count :=
          if p.2.cell_type == "code" then p.2.execution_count else none }),
     s0, []))

/-- `get_all_outputs` (lines 1063-1094). -/
def get_all_outputs (s : ServerState) : List (Nat × String) × ServerState × List Event :=
  withConn false s (fun s0 =>
    (s0.cells.enum.filterMap (fun p =>
      if p.2.cell_type == "code" then
        some (p.1,
          if !p.2.outputs.isEmpty then
            let os := (String.intercalate "\n" (p.2.outputs.map extract_output)).trim
            if os != "" then os else "[No output]"
          else
            match p.2.execution_count with
            | some _ => "[No output]"
            | none => "[Not executed]")
      else none),
     s0, []))

/-- `_run_temporary_code` (lines 174-212): add a code cell at the bottom,
parse its index from the result message, request execution, wait, read the
output, and in the `finally` block delete the temporary cell whenever an
index was obtained. -/
def _run_temporary_code (code_content : String) (wait_seconds : ℚ)
    (tool_name : String) (env : Env) (s : ServerState) :
    String × ServerState × List Event :=
  let a := add_code_cell_on_bottom code_content s
  match _parse_index_from_message a.1 with
  | none =>
    ("[Error in " ++ tool_name ++ ": Failed to add temporary cell. Add result: " ++
       a.1 ++ "]", a.2.1, a.2.2)
  | some cell_index =>
    let e := execute_cell (Int.ofNat cell_index) env a.2.1
    if strContains e.1 "[Error" then
      let d := delete_cell (Int.ofNat cell_index) e.2.1
      ("[Error in " ++ tool_name ++ ": Failed to start execution for temporary cell " ++
         toString cell_index ++ ". Exec result: " ++ e.1 ++ "]",
       d.2.1, a.2.2 ++ e.2.2 ++ d.2.2)
    else
      let g := get_cell_output (Int.ofNat cell_index) 0 e.2.1
      let d := delete_cell (Int.ofNat cell_index) g.2.1
      (g.1, d.2.1, a.2.2 ++ e.2.2 ++ Event.sleepEv wait_seconds :: (g.2.2 ++ d.2.2))

/-! ### The dashboard page (`src/streamlit_app/pages/01_📊_Dashboard.py`) -/

/-- The `AppConfig` dataclass of `streamlit_app/config/settings.py`. -/
structure AppConfig where
  debug : Bool
  max_connections : Int
  timeout : Int
  log_level : String
  deriving DecidableEq

/-- The freshly generated random data of the dashboard:
`np.random.normal(150, 30, 30)` response times and
`np.random.poisson(20, 24)` connection counts. -/
structure RandomSource where
  responseTimes : List ℚ
  connections : List Nat
  deriving DecidableEq

/-- One streamlit rendering call of the dashboard page. -/
inductive Rendered where
  | titleItem (t : String)
  | markdownItem (t : String)
  | metricItem (label value delta : String)
  | subheaderItem (t : String)
  | lineChartQ (data : List ℚ)
  | barChartN (data : List Nat)
  | barChartL (data : List (String × Nat))
  | writeItem (t : String)
  | successItem (t : String)
  | errorItem (t : String)
  | infoItem (t : String)
  | warningItem (t : String)
  | textItem (t : String)
  deriving DecidableEq

/-- The recent-activity rows (hard-coded `activity_data`). -/
def activityRows : List Rendered :=
  [Rendered.textItem "10:45 AM", Rendered.textItem "New connection established",
   Rendered.successItem "✅",
   Rendered.textItem "10:42 AM", Rendered.textItem "Query executed",
   Rendered.successItem "✅",
   Rendered.textItem "10:38 AM", Rendered.textItem "User authentication",
   Rendered.successItem "✅",
   Rendered.textItem "10:35 AM", Rendered.textItem "Connection timeout",
   Rendered.warningItem "⚠️",
   Rendered.textItem "10:30 AM", Rendered.textItem "Server restart",
   Rendered.infoItem "ℹ️"]

/-- The `main()` function of the dashboard page as the ordered list of its
rendering calls.  `dbConnOk` is the result of the live socket check
`validate_connection(db_config.host, db_config.port)`; `cfg` is the
environment-derived `AppConfig`. -/
def dashboardMain (rnd : RandomSource) (dbConnOk : Bool) (cfg : AppConfig) :
    List Rendered :=
  [Rendered.titleItem "📊 Server Dashboard",
   Rendered.markdownItem "Real-time monitoring and analytics for the Jupyter MCP Server.",
   Rendered.metricItem "Active Sessions" "24" "3",
   Rendered.metricItem "CPU Usage" "67%" "-5%",
   Rendered.metricItem "Memory Usage" "4.2 GB" "0.3 GB",
   Rendered.metricItem "Response Time" "145ms" "-12ms",
   Rendered.subheaderItem "📈 Performance Metrics",
   Rendered.lineChartQ rnd.responseTimes,
   Rendered.barChartN rnd.connections,
   Rendered.barChartL
     [("Timeout", 5), ("Connection Failed", 2), ("Invalid Query", 8),
      ("Permission Denied", 1)],
   Rendered.subheaderItem "🔧 System Status",
   Rendered.writeItem "**Database Connection**"] ++
  [(if dbConnOk then Rendered.successItem "✅ Connected"
    else Rendered.errorItem "❌ Disconnected"),
   Rendered.writeItem "**Server Health**",
   Rendered.successItem "✅ Healthy",
   Rendered.writeItem "**Last Backup**",
   Rendered.infoItem "2 hours ago",
   Rendered.writeItem "**Configuration**",
   Rendered.textItem ("Debug Mode: " ++ (if cfg.debug then "On" else "Off")),
   Rendered.textItem ("Max Connections: " ++ toString cfg.max_connections),
   Rendered.textItem ("Timeout: " ++ toString cfg.timeout ++ "s"),
   Rendered.textItem ("Log Level: " ++ cfg.log_level),
   Rendered.subheaderItem "📝 Recent Activity"] ++
  activityRows

/-- The metrics (`st.metric` calls) of a rendered page, as
label/value/delta triples. -/
def metricsOf (page : List Rendered) : List (String × String × String) :=
  page.filterMap (fun r =>
    match r with
    | Rendered.metricItem l v d => some (l, v, d)
    | _ => none)

/-- Chart payloads of a rendered page. -/
inductive ChartData where
  | lineQ (data : List ℚ)
  | barN (data : List Nat)
  | barL (data : List (String × Nat))
  deriving DecidableEq

/-- The chart payloads of a rendered page, in order. -/
def chartsOf (page : List Rendered) : List ChartData :=
  page.filterMap (fun r =>
    match r with
    | Rendered.lineChartQ d => some (ChartData.lineQ d)
    | Rendered.barChartN d => some (ChartData.barN d)
    | Rendered.barChartL d => some (ChartData.barL d)
    | _ => none)

/-! ### Lemmas about the list and string helpers -/

theorem pyInsert_length {α : Type} : ∀ (l : List α) (i : Nat) (a : α),
    (pyInsert l i a).length = l.length + 1
  | [], _, _ => by simp [pyInsert]
  | _ :: _, 0, _ => rfl
  | c :: l, i + 1, a => by
    simp only [pyInsert, List.length_cons, pyInsert_length l i a]

theorem pyInsert_ge {α : Type} : ∀ (l : List α) (i : Nat) (a : α),
    l.length ≤ i → pyInsert l i a = l ++ [a]
  | [], _, _, _ => by simp [pyInsert]
  | _ :: _, 0, _, h => by simp at h
  | c :: l, i + 1, a, h => by
    simp only [pyInsert, List.cons_append, List.cons.injEq, true_and]
    exact pyInsert_ge l i a (by simp at h; omega)

theorem pyInsert_getD_self {α : Type} : ∀ (l : List α) (i : Nat) (a d : α),
    i ≤ l.length → (pyInsert l i a).getD i d = a
  | [], 0, _, _, _ => by simp [pyInsert]
  | [], _ + 1, _, _, h => absurd h (by simp)
  | _ :: _, 0, _, _, _ => rfl
  | c :: l, i + 1, a, d, h => by
    simp only [pyInsert, List.getD_cons_succ]
    exact pyInsert_getD_self l i a d (by simp at h; omega)

theorem pyInsert_getD_lt {α : Type} : ∀ (l : List α) (i : Nat) (a d : α) (j : Nat),
    j < i → i ≤ l.length → (pyInsert l i a).getD j d = l.getD j d
  | [], _, _, _, _, hj, hi => by simp at hi; omega
  | _ :: _, 0, _, _, _, hj, _ => by omega
  | c :: l, i + 1, a, d, 0, _, _ => rfl
  | c :: l, i + 1, a, d, j + 1, hj, hi => by
    simp only [pyInsert, List.getD_cons_succ]
    exact pyInsert_getD_lt l i a d j (by omega) (by simp at hi; omega)

theorem pyInsert_getD_gt {α : Type} : ∀ (l : List α) (i : Nat) (a d : α) (j : Nat),
    i < j → i ≤ l.length → (pyInsert l i a).getD j d = l.getD (j - 1) d
  | [], 0, a, d, j, hj, _ => by
    match j, hj with
    | j + 1, _ => simp [pyInsert]

  | [], _ + 1, _, _, _, _, hi => by simp at hi
  | c :: l, 0, a, d, j, hj, _ => by
    match j, hj with
    | j + 1, _ => simp [pyInsert]
  | c :: l, i + 1, a, d, j, hj, hi => by
    match j, hj with
    | j + 1, _ =>
      simp only [pyInsert, List.getD_cons_succ]
      rw [pyInsert_getD_gt l i a d j (by omega) (by simp at hi; omega)]
      match j, (by omega : 1 ≤ j) with
      | j + 1, _ => simp

theorem getD_set_self {α : Type} (l : List α) (i : Nat) (x d : α) (h : i < l.length) :
    (l.set i x).getD i d = x := by
  simp [List.getD_eq_getElem?_getD, List.getElem?_set_self', h]

theorem getD_set_ne {α : Type} (l : List α) (i j : Nat) (x d : α) (h : i ≠ j) :
    (l.set i x).getD j d = l.getD j d := by
  simp [List.getD_eq_getElem?_getD, List.getElem?_set_ne h]

/-! ### Claim C7: the dashboard's metrics are constants, its charts are
the freshly generated random data or constants -/

/-- Claim C7: every metric value of the dashboard page is a hard-coded
constant — the four headline metrics are the fixed strings 24, 67%, 4.2 GB
and 145ms — and the chart payloads are exactly the freshly generated random
data (response times, connection counts) plus one hard-coded error table;
no metric depends on the database-connection probe `dbConnOk` or on the
environment-derived configuration `cfg`. -/
theorem dashboard_metrics_constant (rnd : RandomSource) (dbConnOk : Bool)
    (cfg : AppConfig) :
    metricsOf (dashboardMain rnd dbConnOk cfg) =
      [("Active Sessions", "24", "3"), ("CPU Usage", "67%", "-5%"),
       ("Memory Usage", "4.2 GB", "0.3 GB"), ("Response Time", "145ms", "-12ms")] ∧
    chartsOf (dashboardMain rnd dbConnOk cfg) =
      [ChartData.lineQ rnd.responseTimes, ChartData.barN rnd.connections,
       ChartData.barL
         [("Timeout", 5), ("Connection Failed", 2), ("Invalid Query", 8),
          ("Permission Denied", 1)]] := by
  cases dbConnOk <;> exact ⟨rfl, rfl⟩

/-! ### Claim C6: invalid cell types are rejected without touching the
document -/

/-- Claim C6: for every `cell_type` other than code,
`add_cell_create_clickzetta_session` returns an error string, leaves the
state untouched and performs no effect at all (empty trace, hence no
document mutation) — in particular also at `cell_type = "markdown"` — and
`add_cell` does the same whenever the `cell_type` is additionally not
markdown. -/
theorem add_cell_rejects_invalid_type (content ct : String) (idx : Option Int)
    (config_file : String) (s : ServerState) (h1 : ct ≠ "code") :
    add_cell_create_clickzetta_session ct idx config_file s =
      ("[Error: Invalid cell_type '" ++ ct ++
         "'. Only 'code' is supported for this operation.]", s, []) ∧
    (ct ≠ "markdown" →
      add_cell content ct idx s =
        ("[Error: Invalid cell_type '" ++ ct ++ "'. Must be 'code' or 'markdown'.]",
         s, [])) := by
  constructor
  · simp [add_cell_create_clickzetta_session, h1]
  · intro h2
    simp [add_cell, h1, h2]

/-- Witness for C6: the clickzetta tool rejects `cell_type = "markdown"`
and `add_cell` rejects `cell_type = "raw"`, each on a concrete state. -/
theorem add_cell_rejects_invalid_type_witness :
    ("markdown" : String) ≠ "code" ∧ ("raw" : String) ≠ "code" ∧
    add_cell_create_clickzetta_session "markdown" none "config.json"
        { notebookPath := "notebook.ipynb", cells := [], kernelAlive := true } =
      ("[Error: Invalid cell_type 'markdown'. Only 'code' is supported for this operation.]",
       { notebookPath := "notebook.ipynb", cells := [], kernelAlive := true }, []) ∧
    add_cell "x" "raw" none
        { notebookPath := "notebook.ipynb", cells := [], kernelAlive := true } =
      ("[Error: Invalid cell_type 'raw'. Must be 'code' or 'markdown'.]",
       { notebookPath := "notebook.ipynb", cells := [], kernelAlive := true }, []) :=
  ⟨by decide, by decide,
    (add_cell_rejects_invalid_type "x" "markdown" none "config.json"
      { notebookPath := "notebook.ipynb", cells := [], kernelAlive := true }
      (by decide)).1,
    (add_cell_rejects_invalid_type "x" "raw" none "config.json"
      { notebookPath := "notebook.ipynb", cells := [], kernelAlive := true }
      (by decide)).2 (by decide)⟩

/-! ### Claim C8: `set_target_notebook` validation -/

/-- Claim C8: `set_target_notebook` replaces the target path exactly when
the new path is relative (does not start with `/`) and contains no `..`;
otherwise it returns an error string and the whole state — in particular the
target path — keeps its previous value. -/
theorem set_target_notebook_spec (p : String) (s : ServerState) :
    (pyIsAbs p = false → strContains p ".." = false →
      set_target_notebook p s =
        ("Target notebook path set to '" ++ p ++ "'.",
         { s with notebookPath := p })) ∧
    (pyIsAbs p = true ∨ strContains p ".." = true →
      set_target_notebook p s =
        ("[Error: Invalid path '" ++ p ++ "'. Must be relative, no '..'.]", s)) := by
  constructor
  · intro h1 h2
    simp [set_target_notebook, h1, h2]
  · intro h
    rcases h with h | h <;> simp [set_target_notebook, h]

/-- Witness for C8: a valid relative path is accepted and an absolute path
is rejected with the state unchanged. -/
theorem set_target_notebook_spec_witness :
    set_target_notebook "subdir/notebook.ipynb"
        { notebookPath := "notebook.ipynb", cells := [], kernelAlive := true } =
      ("Target notebook path set to 'subdir/notebook.ipynb'.",
       { notebookPath := "subdir/notebook.ipynb", cells := [], kernelAlive := true }) ∧
    set_target_notebook "/abs/path.ipynb"
        { notebookPath := "notebook.ipynb", cells := [], kernelAlive := true } =
      ("[Error: Invalid path '/abs/path.ipynb'. Must be relative, no '..'.]",
       { notebookPath := "notebook.ipynb", cells := [], kernelAlive := true }) :=
  ⟨(set_target_notebook_spec "subdir/notebook.ipynb"
      { notebookPath := "notebook.ipynb", cells := [], kernelAlive := true }).1
      (by decide) (by decide),
   (set_target_notebook_spec "/abs/path.ipynb"
      { notebookPath := "notebook.ipynb", cells := [], kernelAlive := true }).2
      (Or.inl (by decide))⟩

/-! ### Claim C10: `add_cell` with a valid type always succeeds -/

theorem computeInsertIndex_le (idx : Option Int) (n : Nat) :
    computeInsertIndex idx n ≤ n := by
  cases idx with
  | none => simp [computeInsertIndex]
  | some i =>
    simp only [computeInsertIndex]
    split
    · next h => omega
    · exact Nat.le_refl n

theorem computeInsertIndex_invalid (idx : Option Int) (n : Nat)
    (h : idx = none ∨ ∃ i, idx = some i ∧ ¬(0 ≤ i ∧ i ≤ (n : Int))) :
    computeInsertIndex idx n = n := by
  rcases h with h | ⟨i, hi, hbad⟩
  · simp [h, computeInsertIndex]
  · simp [hi, computeInsertIndex, hbad]

/-- The cell `add_cell` builds for a given valid `cell_type`. -/
def addCellNew (ct content : String) : Cell :=
  if ct == "code" then newCodeCell content else newMarkdownCell content

/-- Claim C10: for a valid `cell_type`, when `index` is `None` or outside
`[0, number_of_cells]` the new cell is appended at position
`number_of_cells` and the call succeeds; every call with a valid type
increases the cell count by exactly one, puts the new cell at the computed
insertion index, and reports that very index in its result message. -/
theorem add_cell_valid_spec (content ct : String) (idx : Option Int)
    (s : ServerState) (h : ct = "code" ∨ ct = "markdown") :
    (idx = none ∨ (∃ i, idx = some i ∧ ¬(0 ≤ i ∧ i ≤ (s.cells.length : Int))) →
      computeInsertIndex idx s.cells.length = s.cells.length ∧
      (add_cell content ct idx s).2.1.cells = s.cells ++ [addCellNew ct content]) ∧
    computeInsertIndex idx s.cells.length ≤ s.cells.length ∧
    (add_cell content ct idx s).2.1.cells.length = s.cells.length + 1 ∧
    (add_cell content ct idx s).2.1.cells.getD
        (computeInsertIndex idx s.cells.length) emptyCell = addCellNew ct content ∧
    (add_cell content ct idx s).1 =
      pyCapitalize ct ++ " cell added at index " ++
        toString (computeInsertIndex idx s.cells.length) ++ "." := by
  have hct : (ct == "code" || ct == "markdown") = true := by
    rcases h with h | h <;> simp [h]
  have hcells : (add_cell content ct idx s).2.1.cells =
      pyInsert s.cells (computeInsertIndex idx s.cells.length) (addCellNew ct content) := by
    simp [add_cell, hct, withConn, addCellNew]
  have hmsg : (add_cell content ct idx s).1 =
      pyCapitalize ct ++ " cell added at index " ++
        toString (computeInsertIndex idx s.cells.length) ++ "." := by
    simp [add_cell, hct, withConn]
  refine ⟨?_, computeInsertIndex_le idx s.cells.length, ?_, ?_, hmsg⟩
  · intro hbad
    have hk := computeInsertIndex_invalid idx s.cells.length hbad
    exact ⟨hk, by rw [hcells, hk, pyInsert_ge _ _ _ (Nat.le_refl _)]⟩
  · rw [hcells, pyInsert_length]
  · rw [hcells, pyInsert_getD_self _ _ _ _ (computeInsertIndex_le idx s.cells.length)]

/-- Witness for C10: adding a markdown cell with out-of-range index 99 to a
one-cell notebook appends it at index 1. -/
theorem add_cell_valid_spec_witness :
    (("markdown" : String) = "code" ∨ ("markdown" : String) = "markdown") ∧
    (add_cell "hi" "markdown" (some 99)
        { notebookPath := "notebook.ipynb", cells := [newCodeCell "x = 1"],
          kernelAlive := true }).2.1.cells =
      [newCodeCell "x = 1"] ++ [addCellNew "markdown" "hi"] ∧
    (add_cell "hi" "markdown" (some 99)
        { notebookPath := "notebook.ipynb", cells := [newCodeCell "x = 1"],
          kernelAlive := true }).1 = "Markdown cell added at index 1." :=
  ⟨Or.inr rfl,
   ((add_cell_valid_spec "hi" "markdown" (some 99)
      { notebookPath := "notebook.ipynb", cells := [newCodeCell "x = 1"],
        kernelAlive := true } (Or.inr rfl)).1
      (Or.inr ⟨99, rfl, by decide⟩)).2,
   by
    have := (add_cell_valid_spec "hi" "markdown" (some 99)
      { notebookPath := "notebook.ipynb", cells := [newCodeCell "x = 1"],
        kernelAlive := true } (Or.inr rfl)).2.2.2.2
    simpa using this⟩

/-! ### Substring lemmas -/

theorem startsWithCs_append : ∀ (p l r : List Char),
    startsWithCs p l = true → startsWithCs p (l ++ r) = true
  | [], _, _, _ => rfl
  | _ :: _, [], _, h => by simp [startsWithCs] at h
  | p :: ps, c :: cs, r, h => by
    simp only [startsWithCs, Bool.and_eq_true, beq_iff_eq] at h
    simp only [List.cons_append, startsWithCs, Bool.and_eq_true, beq_iff_eq]
    exact ⟨h.1, startsWithCs_append ps cs r h.2⟩

theorem hasSubCs_nil_pat : ∀ (b : List Char), hasSubCs [] b = true
  | [] => rfl
  | _ :: _ => by simp [hasSubCs, startsWithCs]

theorem hasSubCs_append_left : ∀ (p a b : List Char),
    hasSubCs p a = true → hasSubCs p (a ++ b) = true
  | p, [], b, h => by
    cases p with
    | nil => exact hasSubCs_nil_pat b
    | cons pc ps => simp [hasSubCs, startsWithCs] at h
  | p, c :: cs, b, h => by
    simp only [hasSubCs, Bool.or_eq_true] at h
    simp only [List.cons_append, hasSubCs, Bool.or_eq_true]
    rcases h with h | h
    · exact Or.inl (by simpa using startsWithCs_append p (c :: cs) b h)
    · exact Or.inr (hasSubCs_append_left p cs b h)

theorem hasSubCs_append_right : ∀ (p a b : List Char),
    hasSubCs p b = true → hasSubCs p (a ++ b) = true
  | _, [], _, h => h
  | p, c :: cs, b, h => by
    simp only [List.cons_append, hasSubCs, Bool.or_eq_true]
    exact Or.inr (hasSubCs_append_right p cs b h)

theorem hasSubCs_false_of_head_notMem : ∀ (pc : Char) (ps l : List Char),
    pc ∉ l → hasSubCs (pc :: ps) l = false
  | _, _, [], _ => by simp [hasSubCs, startsWithCs]
  | pc, ps, c :: cs, h => by
    have h1 : pc ≠ c := fun he => h (he ▸ List.mem_cons_self c cs)
    have h2 : pc ∉ cs := fun he => h (List.mem_cons_of_mem c he)
    simp [hasSubCs, startsWithCs, h1, hasSubCs_false_of_head_notMem pc ps cs h2]

theorem strStarts_append_left (a b pat : String) (h : strStarts a pat = true) :
    strStarts (a ++ b) pat = true := by
  simpa [strStarts] using startsWithCs_append pat.data a.data b.data h

theorem strContains_append_left (a b pat : String) (h : strContains a pat = true) :
    strContains (a ++ b) pat = true := by
  simpa [strContains] using hasSubCs_append_left pat.data a.data b.data h

theorem strContains_append_right (a b pat : String) (h : strContains b pat = true) :
    strContains (a ++ b) pat = true := by
  simpa [strContains] using hasSubCs_append_right pat.data a.data b.data h

/-! ### The out-of-bounds error messages -/

theorem oobMsg_marks (i : Int) (n : Nat) :
    strStarts (oobMsg i n) "[Error" = true ∧
    strContains (oobMsg i n) "out of bounds" = true := by
  constructor
  · exact strStarts_append_left _ _ _ (strStarts_append_left _ _ _
      (strStarts_append_left _ _ _ (strStarts_append_left _ _ _ (by decide))))
  · exact strContains_append_left _ _ _ (strContains_append_left _ _ _
      (strContains_append_right _ _ _ (by decide)))

theorem moveFromMsg_marks (i : Int) (n : Nat) :
    strStarts ("[Error: from_index " ++ toString i ++ " out of bounds (0-" ++
      toString ((n : Int) - 1) ++ ")]") "[Error" = true ∧
    strContains ("[Error: from_index " ++ toString i ++ " out of bounds (0-" ++
      toString ((n : Int) - 1) ++ ")]") "out of bounds" = true := by
  constructor
  · exact strStarts_append_left _ _ _ (strStarts_append_left _ _ _
      (strStarts_append_left _ _ _ (strStarts_append_left _ _ _ (by decide))))
  · exact strContains_append_left _ _ _ (strContains_append_left _ _ _
      (strContains_append_right _ _ _ (by decide)))

theorem moveToMsg_marks (i : Int) (n : Nat) :
    strStarts ("[Error: to_index " ++ toString i ++ " out of bounds (0-" ++
      toString (n : Int) ++ ")]") "[Error" = true ∧
    strContains ("[Error: to_index " ++ toString i ++ " out of bounds (0-" ++
      toString (n : Int) ++ ")]") "out of bounds" = true := by
  constructor
  · exact strStarts_append_left _ _ _ (strStarts_append_left _ _ _
      (strStarts_append_left _ _ _ (strStarts_append_left _ _ _ (by decide))))
  · exact strContains_append_left _ _ _ (strContains_append_left _ _ _
      (strContains_append_right _ _ _ (by decide)))

/-! ### Claim C1: out-of-bounds indices -/

/-- A tool call that reported an out-of-bounds error and left the cell list
unchanged. -/
def OobRes (r : String × ServerState × List Event) (s : ServerState) : Prop :=
  strStarts r.1 "[Error" = true ∧ strContains r.1 "out of bounds" = true ∧
    r.2.1.cells = s.cells

/-- Claim C1 (amended): with a cell index outside `[0, number_of_cells - 1]`,
`delete_cell`, `edit_cell_source`, `get_cell_output`, `split_cell` (when its
`line_number` precondition holds), `execute_cell` (when the kernel client is
available) and `move_cell` return an error string containing "out of bounds"
and leave the cell list unchanged; the same holds of `move_cell` for a
`to_index` outside `[0, number_of_cells]`.  In the two remaining cases —
`split_cell` with `line_number < 1` and `execute_cell` with an unavailable
kernel client — an earlier validation fires first: the call still returns an
`[Error...]` string and still leaves the cell list unchanged, but the
message reports that earlier error instead of the out-of-bounds one. -/
theorem tools_out_of_bounds (s : ServerState) (env : Env) (i : Int)
    (content : String) (w : ℚ)
    (hoob : ¬(0 ≤ i ∧ i < (s.cells.length : Int))) :
    OobRes (delete_cell i s) s ∧
    OobRes (edit_cell_source i content s) s ∧
    OobRes (get_cell_output i w s) s ∧
    (∀ ln : Int, 1 ≤ ln → OobRes (split_cell i ln s) s) ∧
    (∀ ln : Int, strStarts (split_cell i ln s).1 "[Error" = true ∧
      (split_cell i ln s).2.1.cells = s.cells) ∧
    (s.kernelAlive = true ∨ env.restartOk = true → OobRes (execute_cell i env s) s) ∧
    (s.kernelAlive = false → env.restartOk = false →
      strStarts (execute_cell i env s).1 "[Error" = true ∧
      (execute_cell i env s).2.1.cells = s.cells) ∧
    (∀ t : Int, OobRes (move_cell i t s) s) ∧
    (∀ f t : Int, 0 ≤ f → f < (s.cells.length : Int) →
      ¬(0 ≤ t ∧ t ≤ (s.cells.length : Int)) → OobRes (move_cell f t s) s) := by
  refine ⟨?_, ?_, ?_, ?_, ?_, ?_, ?_, ?_, ?_⟩
  · exact ⟨by simp [delete_cell, withConn, hoob, (oobMsg_marks i s.cells.length).1],
      by simp [delete_cell, withConn, hoob, (oobMsg_marks i s.cells.length).2],
      by simp [delete_cell, withConn, hoob]⟩
  · exact ⟨by simp [edit_cell_source, withConn, hoob, (oobMsg_marks i s.cells.length).1],
      by simp [edit_cell_source, withConn, hoob, (oobMsg_marks i s.cells.length).2],
      by simp [edit_cell_source, withConn, hoob]⟩
  · exact ⟨by simp [get_cell_output, withConn, hoob, (oobMsg_marks i s.cells.length).1],
      by simp [get_cell_output, withConn, hoob, (oobMsg_marks i s.cells.length).2],
      by simp [get_cell_output, withConn, hoob]⟩
  · intro ln hln
    have hnot : ¬(ln < 1) := by omega
    exact ⟨by simp [split_cell, withConn, hnot, hoob, (oobMsg_marks i s.cells.length).1],
      by simp [split_cell, withConn, hnot, hoob, (oobMsg_marks i s.cells.length).2],
      by simp [split_cell, withConn, hnot, hoob]⟩
  · intro ln
    by_cases hln : ln < 1
    · exact ⟨by simp [split_cell, hln]; decide, by simp [split_cell, hln]⟩
    · exact ⟨by simp [split_cell, withConn, hln, hoob, (oobMsg_marks i s.cells.length).1],
        by simp [split_cell, withConn, hln, hoob]⟩
  · intro hk
    rcases hk with hk | hk
    · by_cases ha : s.kernelAlive
      · exact ⟨by simp [execute_cell, kernelEnsure, ha, withConn, hoob,
            (oobMsg_marks i s.cells.length).1],
          by simp [execute_cell, kernelEnsure, ha, withConn, hoob,
            (oobMsg_marks i s.cells.length).2],
          by simp [execute_cell, kernelEnsure, ha, withConn, hoob]⟩
      · exact absurd hk ha
    · by_cases ha : s.kernelAlive
      · exact ⟨by simp [execute_cell, kernelEnsure, ha, withConn, hoob,
            (oobMsg_marks i s.cells.length).1],
          by simp [execute_cell, kernelEnsure, ha, withConn, hoob,
            (oobMsg_marks i s.cells.length).2],
          by simp [execute_cell, kernelEnsure, ha, withConn, hoob]⟩
      · exact ⟨by simp [execute_cell, kernelEnsure, ha, hk, withConn, hoob,
            (oobMsg_marks i s.cells.length).1],
          by simp [execute_cell, kernelEnsure, ha, hk, withConn, hoob,
            (oobMsg_marks i s.cells.length).2],
          by simp [execute_cell, kernelEnsure, ha, hk, withConn, hoob]⟩
  · intro ha hr
    refine ⟨?_, by simp [execute_cell, kernelEnsure, ha, hr]⟩
    have : (execute_cell i env s).1 =
        "[Error: Kernel client connection failed for cell " ++ toString i ++ ".]" := by
      simp [execute_cell, kernelEnsure, ha, hr]
    rw [this]
    exact strStarts_append_left _ _ _ (strStarts_append_left _ _ _ (by decide))
  · intro t
    exact ⟨by simp [move_cell, withConn, hoob, (moveFromMsg_marks i s.cells.length).1],
      by simp [move_cell, withConn, hoob, (moveFromMsg_marks i s.cells.length).2],
      by simp [move_cell, withConn, hoob]⟩
  · intro f t hf0 hf ht
    have hfin : 0 ≤ f ∧ f < (s.cells.length : Int) := ⟨hf0, hf⟩
    exact ⟨by simp [move_cell, withConn, hfin, ht, (moveToMsg_marks t s.cells.length).1],
      by simp [move_cell, withConn, hfin, ht, (moveToMsg_marks t s.cells.length).2],
      by simp [move_cell, withConn, hfin, ht]⟩

/-- A concrete one-cell notebook used by counterexamples and witnesses. -/
def stOne : ServerState :=
  { notebookPath := "notebook.ipynb", cells := [newCodeCell "a = 1\nb = 2"],
    kernelAlive := true }

/-- Counterexample to C1 as frozen: `split_cell 5 0` on a one-cell notebook
has its cell index 5 out of bounds, yet the returned error string is the
`line_number` message, which does not contain "out of bounds". -/
theorem tools_out_of_bounds_cex :
    ¬(0 ≤ (5 : Int) ∧ (5 : Int) < (stOne.cells.length : Int)) ∧
    strStarts (split_cell 5 0 stOne).1 "[Error" = true ∧
    strContains (split_cell 5 0 stOne).1 "out of bounds" = false := by
  refine ⟨by decide, ?_, ?_⟩ <;> decide

/-- Witness for C1 at index 5 of a one-cell notebook. -/
theorem tools_out_of_bounds_witness :
    OobRes (delete_cell 5 stOne) stOne ∧ OobRes (move_cell 5 0 stOne) stOne ∧
    OobRes (move_cell 0 7 stOne) stOne ∧ OobRes (split_cell 5 1 stOne) stOne :=
  ⟨(tools_out_of_bounds stOne { restartOk := true } 5 "x" 0 (by decide)).1,
   (tools_out_of_bounds stOne { restartOk := true } 5 "x" 0 (by decide)).2.2.2.2.2.2.2.1 0,
   (tools_out_of_bounds stOne { restartOk := true } 5 "x" 0
     (by decide)).2.2.2.2.2.2.2.2 0 7 (by decide) (by decide) (by decide),
   (tools_out_of_bounds stOne { restartOk := true } 5 "x" 0 (by decide)).2.2.2.1 1
     (by decide)⟩

/-! ### Claim C2: transactions and container mutations -/

/-- Mutations of the cell array itself (insert or delete of a cell; the
code never replaces a cell in place). -/
def isCellArrayMut : Event → Bool
  | Event.cellsInsert _ => true
  | Event.cellsDelete _ => true
  | _ => false

/-- Any CRDT-container mutation: cell-array inserts/deletes, source-text
edits, clearing an outputs array, setting an execution count. -/
def isContainerMut : Event → Bool
  | Event.cellsInsert _ => true
  | Event.cellsDelete _ => true
  | Event.textDelete _ => true
  | Event.textInsert _ => true
  | Event.outputsClear _ => true
  | Event.setExecCount _ => true
  | _ => false

/-- Scan a trace for transaction structure: `inTx` is whether a transaction
is open, `k` counts the transactions seen so far.  The scan fails (`none`)
on nested or unclosed transactions and on any container mutation outside a
transaction; otherwise it returns the number of transactions. -/
def txScan : Bool → Nat → List Event → Option Nat
  | inTx, k, [] => if inTx then none else some k
  | inTx, k, Event.txBegin :: r => if inTx then none else txScan true (k + 1) r
  | inTx, k, Event.txEnd :: r => if inTx then txScan false k r else none
  | inTx, k, e :: r =>
    if isContainerMut e && !inTx then none else txScan inTx k r

/-- The updated original cell of a `split_cell` call: the source becomes
the first part, and a code cell additionally has its outputs cleared and its
execution count reset. -/
def splitUpdatedCell (c : Cell) (p1 : String) : Cell :=
  if c.cell_type == "code" then
    { c with source := p1, outputs := [], execution_count := none }
  else
    { c with source := p1 }

/-- Evaluation of `split_cell` on the success path: the result message, the
new cell list and the trace. -/
theorem split_cell_eq (s : ServerState) (i ln : Int)
    (h0 : 0 ≤ i) (h1 : i < (s.cells.length : Int)) (hl1 : 1 ≤ ln)
    (hl2 : ln ≤ ((splitlinesKE (s.cells.getD i.toNat emptyCell).source).length : Int) + 1) :
    split_cell i ln s =
      ("Cell " ++ toString i ++ " split at line " ++ toString ln ++
         ". New cell created at index " ++ toString (i.toNat + 1) ++ ".",
       { s with cells :=
          (pyInsert
            (s.cells.set i.toNat
              (splitUpdatedCell (s.cells.getD i.toNat emptyCell)
                (String.join
                  ((splitlinesKE (s.cells.getD i.toNat emptyCell).source).take
                    (ln.toNat - 1)))))
            (i.toNat + 1)
            { cell_type := (s.cells.getD i.toNat emptyCell).cell_type,
              source := String.join
                ((splitlinesKE (s.cells.getD i.toNat emptyCell).source).drop
                  (ln.toNat - 1)),
              outputs := [], execution_count := none }) },
       [Event.connStart true, Event.txBegin, Event.textDelete i.toNat,
         Event.textInsert i.toNat] ++
         (if (s.cells.getD i.toNat emptyCell).cell_type == "code" then
           [Event.outputsClear i.toNat, Event.setExecCount i.toNat] else []) ++
         [Event.cellsInsert (i.toNat + 1), Event.txEnd,
           Event.sleepEv MODIFY_SYNC_DELAY, Event.connStop true]) := by
  have hl : ¬ ln < 1 := by omega
  have hin : 0 ≤ i ∧ i < (s.cells.length : Int) := ⟨h0, h1⟩
  have hlin : 1 ≤ ln ∧
      ln ≤ ((splitlinesKE (s.cells.getD i.toNat emptyCell).source).length : Int) + 1 :=
    ⟨hl1, hl2⟩
  simp only [split_cell, withConn, if_neg hl, if_neg (not_not_intro hin),
    if_neg (not_not_intro hlin), if_true]
  by_cases hcode : (s.cells.getD i.toNat emptyCell).cell_type == "code" <;>
    simp [hcode, splitUpdatedCell]

/-- Counterexample to C2 as frozen: on a two-cell notebook, `move_cell 0 1`
performs two cell-array mutations — a delete followed by an insert — inside
its single transaction, not one. -/
theorem move_cell_two_mutations_cex :
    (move_cell 0 1
        { notebookPath := "notebook.ipynb",
          cells := [newCodeCell "a", newCodeCell "b"],
          kernelAlive := true }).2.2.filter isCellArrayMut =
      [Event.cellsDelete 0, Event.cellsInsert 1] ∧
    ¬((move_cell 0 1
        { notebookPath := "notebook.ipynb",
          cells := [newCodeCell "a", newCodeCell "b"],
          kernelAlive := true }).2.2.filter isCellArrayMut).length = 1 := by
  constructor <;> decide

/-- Claim C2 (amended): every document-modifying tool performs all of its
CRDT-container mutations inside exactly one well-nested transaction, and
the cell-array mutations are: one insert for `add_cell`,
`add_cell_create_clickzetta_session` and `split_cell`, one delete for
`delete_cell`, a delete followed by an insert for `move_cell`, and none for
`edit_cell_source` (which edits the cell's source-text container instead). -/
theorem modifying_tools_single_transaction (s : ServerState) :
    (∀ (content ct : String) (idx : Option Int), ct = "code" ∨ ct = "markdown" →
      txScan false 0 (add_cell content ct idx s).2.2 = some 1 ∧
      (add_cell content ct idx s).2.2.filter isCellArrayMut =
        [Event.cellsInsert (computeInsertIndex idx s.cells.length)]) ∧
    (∀ (idx : Option Int) (cf : String),
      txScan false 0 (add_cell_create_clickzetta_session "code" idx cf s).2.2 = some 1 ∧
      (add_cell_create_clickzetta_session "code" idx cf s).2.2.filter isCellArrayMut =
        [Event.cellsInsert (computeInsertIndex idx s.cells.length)]) ∧
    (∀ i : Int, 0 ≤ i → i < (s.cells.length : Int) →
      txScan false 0 (delete_cell i s).2.2 = some 1 ∧
      (delete_cell i s).2.2.filter isCellArrayMut = [Event.cellsDelete i.toNat]) ∧
    (∀ f t : Int, 0 ≤ f → f < (s.cells.length : Int) → 0 ≤ t →
      t ≤ (s.cells.length : Int) → ¬(f = t) →
      txScan false 0 (move_cell f t s).2.2 = some 1 ∧
      (move_cell f t s).2.2.filter isCellArrayMut =
        [Event.cellsDelete f.toNat, Event.cellsInsert t.toNat]) ∧
    (∀ i ln : Int, 0 ≤ i → i < (s.cells.length : Int) → 1 ≤ ln →
      ln ≤ ((splitlinesKE (s.cells.getD i.toNat emptyCell).source).length : Int) + 1 →
      txScan false 0 (split_cell i ln s).2.2 = some 1 ∧
      (split_cell i ln s).2.2.filter isCellArrayMut =
        [Event.cellsInsert (i.toNat + 1)]) ∧
    (∀ (i : Int) (content : String), 0 ≤ i → i < (s.cells.length : Int) →
      txScan false 0 (edit_cell_source i content s).2.2 = some 1 ∧
      (edit_cell_source i content s).2.2.filter isCellArrayMut = []) := by
  refine ⟨?_, ?_, ?_, ?_, ?_, ?_⟩
  · intro content ct idx h
    have hct : (ct == "code" || ct == "markdown") = true := by
      rcases h with h | h <;> simp [h]
    constructor <;>
      simp [add_cell, hct, withConn, txScan, isContainerMut, isCellArrayMut,
        MODIFY_SYNC_DELAY]
  · intro idx cf
    constructor <;>
      simp [add_cell_create_clickzetta_session, withConn, txScan, isContainerMut,
        isCellArrayMut, MODIFY_SYNC_DELAY]
  · intro i h0 h1
    have hin : 0 ≤ i ∧ i < (s.cells.length : Int) := ⟨h0, h1⟩
    constructor <;>
      simp [delete_cell, hin, withConn, txScan, isContainerMut, isCellArrayMut,
        MODIFY_SYNC_DELAY]
  · intro f t hf0 hf ht0 ht hne
    have hfin : 0 ≤ f ∧ f < (s.cells.length : Int) := ⟨hf0, hf⟩
    have htin : 0 ≤ t ∧ t ≤ (s.cells.length : Int) := ⟨ht0, ht⟩
    constructor <;>
      simp [move_cell, hfin, htin, hne, withConn, txScan, isContainerMut,
        isCellArrayMut, MODIFY_SYNC_DELAY]
  · intro i ln h0 h1 hl1 hl2
    rw [split_cell_eq s i ln h0 h1 hl1 hl2]
    cases hcode : (s.cells.getD i.toNat emptyCell).cell_type == "code" <;>
      constructor <;>
        (simp only [hcode]; simp [txScan, isContainerMut, isCellArrayMut])
  · intro i content h0 h1
    have hin : 0 ≤ i ∧ i < (s.cells.length : Int) := ⟨h0, h1⟩
    constructor <;>
      simp [edit_cell_source, hin, withConn, txScan, isContainerMut, isCellArrayMut,
        MODIFY_SYNC_DELAY]

/-- Witness for C2 (amended) on a two-cell notebook. -/
theorem modifying_tools_single_transaction_witness :
    (txScan false 0 (delete_cell 0 stOne).2.2 = some 1 ∧
      (delete_cell 0 stOne).2.2.filter isCellArrayMut = [Event.cellsDelete 0]) ∧
    (txScan false 0 (edit_cell_source 0 "y" stOne).2.2 = some 1 ∧
      (edit_cell_source 0 "y" stOne).2.2.filter isCellArrayMut = []) :=
  ⟨(modifying_tools_single_transaction stOne).2.2.1 0 (by decide) (by decide),
   (modifying_tools_single_transaction stOne).2.2.2.2.2 0 "y" (by decide) (by decide)⟩

/-! ### Claim C9: `split_cell` splits sources exactly -/

theorem splitlinesCs_join : ∀ (acc cs : List Char),
    (splitlinesCs acc cs).flatten = acc.reverse ++ cs := by
  intro acc cs
  induction acc, cs using splitlinesCs.induct with
  | case1 acc h => simp [splitlinesCs, List.isEmpty_iff.mp h]
  | case2 acc h => simp [splitlinesCs, h]
  | case3 acc cs ih => simp [splitlinesCs, ih]
  | case4 acc c cs hx h ih =>
    rw [splitlinesCs.eq_3 acc c cs hx, if_pos h]
    simp [ih]
  | case5 acc c cs hx h ih =>
    rw [splitlinesCs.eq_3 acc c cs hx, if_neg h]
    simp [ih]

theorem stringFoldlAppend_data : ∀ (l : List String) (init : String),
    (l.foldl (fun r t => r ++ t) init).data = init.data ++ (l.map String.data).flatten
  | [], init => by simp
  | t :: l, init => by
    simp [stringFoldlAppend_data l (init ++ t)]

theorem stringJoin_data (l : List String) :
    (String.join l).data = (l.map String.data).flatten := by
  simpa [String.join] using stringFoldlAppend_data l ""

theorem stringDataExt {s t : String} (h : s.data = t.data) : s = t := by
  cases s
  cases t
  exact congrArg String.mk h

/-- Joining all keepends-lines of a string gives back the string. -/
theorem splitlinesKE_join (src : String) : String.join (splitlinesKE src) = src := by
  apply stringDataExt
  rw [stringJoin_data, splitlinesKE]
  have : (splitlinesCs [] src.data).map (fun l => (String.mk l).data) =
      splitlinesCs [] src.data := by
    simp
  rw [List.map_map]
  simp only [Function.comp_def]
  rw [this]
  simpa using splitlinesCs_join [] src.data

/-- Splitting the lines at any position and joining the two parts gives
back the string. -/
theorem splitlinesKE_parts (src : String) (k : Nat) :
    String.join ((splitlinesKE src).take k) ++ String.join ((splitlinesKE src).drop k) =
      src := by
  apply stringDataExt
  simp only [String.data_append, stringJoin_data]
  rw [← List.flatten_append, ← List.map_append, List.take_append_drop]
  rw [← stringJoin_data, splitlinesKE_join]

theorem splitUpdatedCell_source (c : Cell) (p : String) :
    (splitUpdatedCell c p).source = p := by
  rw [splitUpdatedCell]
  split <;> rfl

theorem splitUpdatedCell_type (c : Cell) (p : String) :
    (splitUpdatedCell c p).cell_type = c.cell_type := by
  rw [splitUpdatedCell]
  split <;> rfl

/-- Claim C9: when `split_cell` succeeds on cell `i` at line `ln`, the two
resulting sources concatenate to the original source, both cells keep the
original cell type, the new cell sits at index `i + 1` (cells below `i` and
the tails above `i + 1` are untouched), and the cell count grows by one. -/
theorem split_cell_success_spec (s : ServerState) (i ln : Int)
    (h0 : 0 ≤ i) (h1 : i < (s.cells.length : Int)) (hl1 : 1 ≤ ln)
    (hl2 : ln ≤ ((splitlinesKE (s.cells.getD i.toNat emptyCell).source).length : Int) + 1) :
    (split_cell i ln s).2.1.cells.length = s.cells.length + 1 ∧
    ((split_cell i ln s).2.1.cells.getD i.toNat emptyCell).source ++
        ((split_cell i ln s).2.1.cells.getD (i.toNat + 1) emptyCell).source =
      (s.cells.getD i.toNat emptyCell).source ∧
    ((split_cell i ln s).2.1.cells.getD i.toNat emptyCell).cell_type =
      (s.cells.getD i.toNat emptyCell).cell_type ∧
    ((split_cell i ln s).2.1.cells.getD (i.toNat + 1) emptyCell).cell_type =
      (s.cells.getD i.toNat emptyCell).cell_type ∧
    (∀ j, j < i.toNat →
      (split_cell i ln s).2.1.cells.getD j emptyCell = s.cells.getD j emptyCell) ∧
    (∀ j, i.toNat + 1 < j →
      (split_cell i ln s).2.1.cells.getD j emptyCell = s.cells.getD (j - 1) emptyCell) := by
  rw [split_cell_eq s i ln h0 h1 hl1 hl2]
  have hidx : i.toNat < s.cells.length := by omega
  have hlen : (s.cells.set i.toNat
      (splitUpdatedCell (s.cells.getD i.toNat emptyCell)
        (String.join
          ((splitlinesKE (s.cells.getD i.toNat emptyCell).source).take
            (ln.toNat - 1))))).length = s.cells.length := by
    simp
  refine ⟨?_, ?_, ?_, ?_, ?_, ?_⟩
  · rw [pyInsert_length, hlen]
  · rw [pyInsert_getD_lt _ _ _ _ _ (Nat.lt_succ_self _) (by rw [hlen]; omega),
      pyInsert_getD_self _ _ _ _ (by rw [hlen]; omega),
      getD_set_self _ _ _ _ hidx, splitUpdatedCell_source]
    exact splitlinesKE_parts _ _
  · rw [pyInsert_getD_lt _ _ _ _ _ (Nat.lt_succ_self _) (by rw [hlen]; omega),
      getD_set_self _ _ _ _ hidx, splitUpdatedCell_type]
  · rw [pyInsert_getD_self _ _ _ _ (by rw [hlen]; omega)]
  · intro j hj
    rw [pyInsert_getD_lt _ _ _ _ _ (by omega) (by rw [hlen]; omega),
      getD_set_ne _ _ _ _ _ (by omega)]
  · intro j hj
    rw [pyInsert_getD_gt _ _ _ _ _ (by omega) (by rw [hlen]; omega),
      getD_set_ne _ _ _ _ _ (by omega)]

/-- Witness for C9: splitting the two-line cell of `stOne` at line 2. -/
theorem split_cell_success_spec_witness :
    (split_cell 0 2 stOne).2.1.cells.length = stOne.cells.length + 1 ∧
    ((split_cell 0 2 stOne).2.1.cells.getD 0 emptyCell).source ++
        ((split_cell 0 2 stOne).2.1.cells.getD 1 emptyCell).source =
      (stOne.cells.getD 0 emptyCell).source ∧
    ((split_cell 0 2 stOne).2.1.cells.getD 1 emptyCell).cell_type =
      (stOne.cells.getD 0 emptyCell).cell_type := by
  have h := split_cell_success_spec stOne 0 2 (by decide) (by decide) (by decide)
    (by decide)
  exact ⟨h.1, h.2.1, h.2.2.2.1⟩

/-! ### Claim C4: the sync delay before closing a connection -/

/-- Whether event `e` may directly follow `p` (`none` = start of trace):
closing a `modify` connection is allowed only right after a sleep of
`MODIFY_SYNC_DELAY`; closing a read-only connection must not follow such a
sleep (no sync delay is applied there). -/
def stopOkB (p : Option Event) (e : Event) : Bool :=
  match e, p with
  | Event.connStop true, some (Event.sleepEv d) => d == MODIFY_SYNC_DELAY
  | Event.connStop true, _ => false
  | Event.connStop false, some (Event.sleepEv d) => !(d == MODIFY_SYNC_DELAY)
  | _, _ => true

/-- `stopOkB` holds of every adjacent pair of the trace, starting from
predecessor `p`. -/
def traceOkFrom : Option Event → List Event → Bool
  | _, [] => true
  | p, e :: r => stopOkB p e && traceOkFrom (some e) r

/-- The last event of `l`, or `p` when `l` is empty. -/
def lastO (p : Option Event) (l : List Event) : Option Event :=
  match l.getLast? with
  | some e => some e
  | none => p

theorem lastO_nil (p : Option Event) : lastO p [] = p := rfl

theorem lastO_cons (p : Option Event) (e : Event) (l : List Event) :
    lastO p (e :: l) = lastO (some e) l := by
  cases l with
  | nil => rfl
  | cons b l2 =>
    obtain ⟨x, hx⟩ : ∃ x, (b :: l2).getLast? = some x :=
      Option.isSome_iff_exists.mp (by simp)
    simp only [lastO, List.getLast?_cons_cons, hx]

theorem traceOkFrom_append : ∀ (a : List Event) (p : Option Event) (b : List Event),
    traceOkFrom p (a ++ b) = (traceOkFrom p a && traceOkFrom (lastO p a) b)
  | [], p, b => by simp [traceOkFrom, lastO_nil]
  | e :: a, p, b => by
    simp only [List.cons_append, traceOkFrom, List.append_eq,
      traceOkFrom_append a (some e) b, lastO_cons, Bool.and_assoc]

theorem traceOkFrom_of_all (a : List Event) (p : Option Event) (b : List Event)
    (ha : traceOkFrom p a = true) (hb : ∀ q, traceOkFrom q b = true) :
    traceOkFrom p (a ++ b) = true := by
  rw [traceOkFrom_append, ha, hb]
  rfl

theorem traceOk_add_cell (content ct : String) (idx : Option Int) (s : ServerState)
    (p : Option Event) : traceOkFrom p (add_cell content ct idx s).2.2 = true := by
  by_cases hct : (ct == "code" || ct == "markdown") = true
  · simp [add_cell, hct, withConn, traceOkFrom, stopOkB]
  · simp [add_cell, hct, traceOkFrom]

theorem traceOk_clickzetta (ct : String) (idx : Option Int) (cf : String)
    (s : ServerState) (p : Option Event) :
    traceOkFrom p (add_cell_create_clickzetta_session ct idx cf s).2.2 = true := by
  by_cases hct : ct == "code"
  · have : ¬(ct != "code") = true := by simp_all
    simp [add_cell_create_clickzetta_session, this, withConn, traceOkFrom, stopOkB]
  · have : (ct != "code") = true := by simp_all
    simp [add_cell_create_clickzetta_session, this, traceOkFrom]

theorem traceOk_add_bottom (content : String) (s : ServerState) (p : Option Event) :
    traceOkFrom p (add_code_cell_on_bottom content s).2.2 = true := by
  simp [add_code_cell_on_bottom, withConn, traceOkFrom, stopOkB]

theorem traceOk_delete (i : Int) (s : ServerState) (p : Option Event) :
    traceOkFrom p (delete_cell i s).2.2 = true := by
  by_cases h : 0 ≤ i ∧ i < (s.cells.length : Int) <;>
    simp [delete_cell, h, withConn, traceOkFrom, stopOkB]

theorem traceOk_edit (i : Int) (content : String) (s : ServerState) (p : Option Event) :
    traceOkFrom p (edit_cell_source i content s).2.2 = true := by
  by_cases h : 0 ≤ i ∧ i < (s.cells.length : Int) <;>
    simp [edit_cell_source, h, withConn, traceOkFrom, stopOkB]

theorem traceOk_move (f t : Int) (s : ServerState) (p : Option Event) :
    traceOkFrom p (move_cell f t s).2.2 = true := by
  by_cases h1 : 0 ≤ f ∧ f < (s.cells.length : Int)
  · by_cases h2 : 0 ≤ t ∧ t ≤ (s.cells.length : Int)
    · by_cases h3 : f = t
      · subst h3
        simp [move_cell, h1, h2, withConn, traceOkFrom, stopOkB]
      · simp [move_cell, h1, h2, h3, withConn, traceOkFrom, stopOkB]
    · simp [move_cell, h1, h2, withConn, traceOkFrom, stopOkB]
  · simp [move_cell, h1, withConn, traceOkFrom, stopOkB]

theorem get_cell_output_trace (i : Int) (w : ℚ) (s : ServerState) :
    (get_cell_output i w s).2.2 =
      (if 0 < w then [Event.sleepEv w] else []) ++
        [Event.connStart false, Event.connStop false] := by
  simp only [get_cell_output, withConn]
  congr 1
  repeat' split
  all_goals first | rfl | (rename_i hf; exact absurd hf (by simp))

theorem traceOk_get_output (i : Int) (w : ℚ) (s : ServerState) (p : Option Event) :
    traceOkFrom p (get_cell_output i w s).2.2 = true := by
  rw [get_cell_output_trace]
  by_cases hw : 0 < w <;> simp [hw, traceOkFrom, stopOkB]

theorem traceOk_get_all_cells (s : ServerState) (p : Option Event) :
    traceOkFrom p (get_all_cells s).2.2 = true := by
  simp [get_all_cells, withConn, traceOkFrom, stopOkB]

theorem traceOk_get_all_outputs (s : ServerState) (p : Option Event) :
    traceOkFrom p (get_all_outputs s).2.2 = true := by
  simp [get_all_outputs, withConn, traceOkFrom, stopOkB]

theorem traceOk_split (i ln : Int) (s : ServerState) (p : Option Event) :
    traceOkFrom p (split_cell i ln s).2.2 = true := by
  by_cases h1 : ln < 1
  · simp [split_cell, h1, traceOkFrom]
  · by_cases h2 : 0 ≤ i ∧ i < (s.cells.length : Int)
    · by_cases h3 : 1 ≤ ln ∧
          ln ≤ ((splitlinesKE (s.cells.getD i.toNat emptyCell).source).length : Int) + 1
      · rw [split_cell_eq s i ln h2.1 h2.2 (by omega) h3.2]
        cases hcode : (s.cells.getD i.toNat emptyCell).cell_type == "code" <;>
          (simp only [hcode]; simp [traceOkFrom, stopOkB])
      · simp only [split_cell, withConn, if_neg h1, if_neg (not_not_intro h2),
          if_pos h3]
        simp [traceOkFrom, stopOkB]
    · simp only [split_cell, withConn, if_neg h1, if_pos h2]
      simp [traceOkFrom, stopOkB]

theorem traceOk_execute_cell (i : Int) (env : Env) (s : ServerState) (p : Option Event) :
    traceOkFrom p (execute_cell i env s).2.2 = true := by
  by_cases ha : s.kernelAlive <;> by_cases hr : env.restartOk <;>
    by_cases h : 0 ≤ i ∧ i < (s.cells.length : Int) <;>
      simp [execute_cell, kernelEnsure, ha, hr, h, withConn, traceOkFrom, stopOkB] <;>
        split <;> simp [traceOkFrom, stopOkB]

theorem lastO_append : ∀ (a : List Event) (p : Option Event) (b : List Event),
    lastO p (a ++ b) = lastO (lastO p a) b
  | [], p, b => by simp [lastO_nil]
  | e :: a, p, b => by
    simp only [List.cons_append, lastO_cons, lastO_append a (some e) b]

/-- With a live kernel, any `execute_cell` trace ends by closing its
read-only connection. -/
theorem execute_cell_alive_lastO (i : Int) (env : Env) (s : ServerState)
    (p : Option Event) (ha : s.kernelAlive = true) :
    lastO p (execute_cell i env s).2.2 = some (Event.connStop false) := by
  by_cases h : 0 ≤ i ∧ i < (s.cells.length : Int) <;>
    simp only [execute_cell, kernelEnsure, ha, h, withConn] <;>
      (repeat' split) <;> simp_all [lastO]

theorem traceOk_execAllLoop (env : Env) (s1 : ServerState) (ha : s1.kernelAlive = true) :
    ∀ (cs : List Cell) (i : Nat) (p : Option Event),
      traceOkFrom p (execAllLoop env s1 i cs).2.2 = true ∧
      (lastO p (execAllLoop env s1 i cs).2.2 = p ∨
        lastO p (execAllLoop env s1 i cs).2.2 = some (Event.sleepEv (1 / 20)))
  | [], i, p => by simp [execAllLoop, traceOkFrom, lastO_nil]
  | c :: cs, i, p => by
    have ih := traceOk_execAllLoop env s1 ha cs (i + 1) (some (Event.sleepEv (1 / 20)))
    by_cases hc : c.cell_type == "code"
    · have htr : (execAllLoop env s1 i (c :: cs)).2.2 =
          (execute_cell (Int.ofNat i) env s1).2.2 ++
            Event.sleepEv (1 / 20) :: (execAllLoop env s1 (i + 1) cs).2.2 := by
        simp [execAllLoop, hc]
      constructor
      · rw [htr, traceOkFrom_append, traceOk_execute_cell,
          execute_cell_alive_lastO _ _ _ _ ha]
        simpa [traceOkFrom, stopOkB] using ih.1
      · rw [htr, lastO_append, lastO_cons]
        rcases ih.2 with h | h
        · exact Or.inr h
        · exact Or.inr h
    · have htr : execAllLoop env s1 i (c :: cs) = execAllLoop env s1 (i + 1) cs := by
        simp [execAllLoop, hc]
      rw [htr]
      exact traceOk_execAllLoop env s1 ha cs (i + 1) p

theorem traceOk_execute_all (env : Env) (s : ServerState) (p : Option Event) :
    traceOkFrom p (execute_all_cells env s).2.2 = true := by
  by_cases ha : s.kernelAlive
  · have hl := traceOk_execAllLoop env s ha s.cells 0 (some (Event.connStart false))
    have htr : (execute_all_cells env s).2.2 =
        Event.connStart false ::
          ((execAllLoop env s 0 s.cells).2.2 ++ [Event.connStop false]) := by
      simp [execute_all_cells, kernelEnsure, ha, withConn]
    rw [htr]
    simp only [traceOkFrom, traceOkFrom_append, hl.1, Bool.true_and]
    rcases hl.2 with h | h <;>
      simp [h, traceOkFrom, stopOkB, MODIFY_SYNC_DELAY]
  · by_cases hr : env.restartOk
    · have ha2 : ({ s with kernelAlive := true } : ServerState).kernelAlive = true := rfl
      have hl := traceOk_execAllLoop env { s with kernelAlive := true } ha2
        s.cells 0 (some (Event.connStart false))
      have htr : (execute_all_cells env s).2.2 =
          Event.sleepEv (1 / 2) :: Event.connStart false ::
            ((execAllLoop env { s with kernelAlive := true } 0 s.cells).2.2 ++
              [Event.connStop false]) := by
        simp [execute_all_cells, kernelEnsure, ha, hr, withConn]
      rw [htr]
      simp only [traceOkFrom, traceOkFrom_append, hl.1, Bool.true_and]
      rcases hl.2 with h | h <;>
        simp [h, traceOkFrom, stopOkB, MODIFY_SYNC_DELAY]
    · simp [execute_all_cells, kernelEnsure, ha, hr, traceOkFrom, stopOkB]

theorem traceOk_run_temp (code : String) (w : ℚ) (tn : String) (env : Env)
    (s : ServerState) (p : Option Event) :
    traceOkFrom p (_run_temporary_code code w tn env s).2.2 = true := by
  rcases hp : _parse_index_from_message (add_code_cell_on_bottom code s).1 with _ | k
  · simp only [_run_temporary_code, hp]
    exact traceOk_add_bottom code s p
  · simp only [_run_temporary_code, hp]
    by_cases he : strContains
        (execute_cell (Int.ofNat k) env (add_code_cell_on_bottom code s).2.1).1 "[Error"
    · simp only [he, if_true]
      rw [List.append_assoc]
      refine traceOkFrom_of_all _ _ _ (traceOk_add_bottom code s p) (fun q => ?_)
      exact traceOkFrom_of_all _ _ _ (traceOk_execute_cell _ _ _ q)
        (fun q2 => traceOk_delete _ _ q2)
    · simp only [he, if_false, Bool.false_eq_true]
      rw [List.append_assoc]
      refine traceOkFrom_of_all _ _ _ (traceOk_add_bottom code s p) (fun q => ?_)
      refine traceOkFrom_of_all _ _ _ (traceOk_execute_cell _ _ _ q) (fun q2 => ?_)
      rw [traceOkFrom]
      have hok : stopOkB q2 (Event.sleepEv w) = true := by
        cases q2 with
        | none => rfl
        | some e => cases e <;> rfl
      rw [hok, Bool.true_and]
      exact traceOkFrom_of_all _ _ _ (traceOk_get_output _ _ _ _)
        (fun q3 => traceOk_delete _ _ q3)

/-- Claim C4: `MODIFY_SYNC_DELAY` is 0.5 seconds, and in the effect trace of
every tool (for every state, argument list and kernel environment) a
`modify = True` connection is only ever stopped directly after a sleep of
`MODIFY_SYNC_DELAY`, while a `modify = False` connection is never stopped
after such a sleep; the modifying tools `delete_cell` and `edit_cell_source`
moreover always close a `modify = True` connection. -/
theorem connection_close_delay (s : ServerState) (env : Env) :
    MODIFY_SYNC_DELAY = 1 / 2 ∧
    (∀ (content ct : String) (idx : Option Int),
      traceOkFrom none (add_cell content ct idx s).2.2 = true) ∧
    (∀ (ct cf : String) (idx : Option Int),
      traceOkFrom none (add_cell_create_clickzetta_session ct idx cf s).2.2 = true) ∧
    (∀ content : String,
      traceOkFrom none (add_code_cell_on_bottom content s).2.2 = true) ∧
    (∀ i : Int, traceOkFrom none (delete_cell i s).2.2 = true) ∧
    (∀ (i : Int) (content : String),
      traceOkFrom none (edit_cell_source i content s).2.2 = true) ∧
    (∀ f t : Int, traceOkFrom none (move_cell f t s).2.2 = true) ∧
    (∀ i ln : Int, traceOkFrom none (split_cell i ln s).2.2 = true) ∧
    (∀ (i : Int) (w : ℚ), traceOkFrom none (get_cell_output i w s).2.2 = true) ∧
    traceOkFrom none (get_all_cells s).2.2 = true ∧
    traceOkFrom none (get_all_outputs s).2.2 = true ∧
    (∀ i : Int, traceOkFrom none (execute_cell i env s).2.2 = true) ∧
    traceOkFrom none (execute_all_cells env s).2.2 = true ∧
    (∀ (code tn : String) (w : ℚ),
      traceOkFrom none (_run_temporary_code code w tn env s).2.2 = true) ∧
    (∀ i : Int, Event.connStop true ∈ (delete_cell i s).2.2) ∧
    (∀ (i : Int) (content : String),
      Event.connStop true ∈ (edit_cell_source i content s).2.2) :=
  ⟨rfl,
   fun content ct idx => traceOk_add_cell content ct idx s none,
   fun ct cf idx => traceOk_clickzetta ct idx cf s none,
   fun content => traceOk_add_bottom content s none,
   fun i => traceOk_delete i s none,
   fun i content => traceOk_edit i content s none,
   fun f t => traceOk_move f t s none,
   fun i ln => traceOk_split i ln s none,
   fun i w => traceOk_get_output i w s none,
   traceOk_get_all_cells s none,
   traceOk_get_all_outputs s none,
   fun i => traceOk_execute_cell i env s none,
   traceOk_execute_all env s none,
   fun code tn w => traceOk_run_temp code w tn env s none,
   fun i => by
     by_cases h : 0 ≤ i ∧ i < (s.cells.length : Int) <;>
       simp [delete_cell, h, withConn],
   fun i content => by
     by_cases h : 0 ≤ i ∧ i < (s.cells.length : Int) <;>
       simp [edit_cell_source, h, withConn]⟩

/-! ### Claim C5: `execute_all_cells` dispatches once per code cell -/

/-- The indices of the code cells of `cs`, the first cell of `cs` having
index `k`. -/
def codeIndicesFrom (k : Nat) : List Cell → List Nat
  | [] => []
  | c :: rest =>
    if c.cell_type == "code" then k :: codeIndicesFrom (k + 1) rest
    else codeIndicesFrom (k + 1) rest

/-- The indices of the execution-dispatch events of a trace, in order. -/
def dispatchIdxs (tr : List Event) : List Nat :=
  tr.filterMap (fun e =>
    match e with
    | Event.dispatchExec j => some j
    | _ => none)

/-- Evaluation of `execute_cell` on its success path. -/
theorem execute_cell_alive_eq (i : Int) (env : Env) (s : ServerState)
    (ha : s.kernelAlive = true) (h0 : 0 ≤ i) (h1 : i < (s.cells.length : Int))
    (hc : (s.cells.getD i.toNat emptyCell).cell_type = "code") :
    execute_cell i env s =
      ("Execution request sent for cell at index " ++ toString i ++ ".", s,
       [Event.connStart false, Event.dispatchExec i.toNat, Event.connStop false]) := by
  have hin : 0 ≤ i ∧ i < (s.cells.length : Int) := ⟨h0, h1⟩
  have hk : kernelEnsure env s = (true, s, []) := by simp [kernelEnsure, ha]
  simp only [execute_cell, hk, withConn, if_neg (not_not_intro hin), hc]
  simp

theorem codeIndicesFrom_ge : ∀ (cs : List Cell) (k : Nat),
    ∀ j ∈ codeIndicesFrom k cs, k ≤ j
  | [], _, _, hj => by simp [codeIndicesFrom] at hj
  | c :: rest, k, j, hj => by
    by_cases hc : c.cell_type == "code" <;> simp [codeIndicesFrom, hc] at hj
    · rcases hj with hj | hj
      · omega
      · have := codeIndicesFrom_ge rest (k + 1) j hj
        omega
    · have := codeIndicesFrom_ge rest (k + 1) j hj
      omega

theorem codeIndicesFrom_chain : ∀ (cs : List Cell) (k : Nat),
    List.Chain' (· < ·) (codeIndicesFrom k cs)
  | [], _ => by simp [codeIndicesFrom]
  | c :: rest, k => by
    by_cases hc : c.cell_type == "code" <;> simp [codeIndicesFrom, hc]
    · refine List.chain'_cons'.mpr ⟨?_, codeIndicesFrom_chain rest (k + 1)⟩
      intro b hb
      have hmem : b ∈ codeIndicesFrom (k + 1) rest := by
        cases hh : codeIndicesFrom (k + 1) rest with
        | nil => simp [hh] at hb
        | cons x l => simp [hh] at hb; simp [hh, hb]
      have := codeIndicesFrom_ge rest (k + 1) b hmem
      omega
    · exact codeIndicesFrom_chain rest (k + 1)

/-- The dispatch trace segment of one code cell. -/
def dispatchSeg (j : Nat) : List Event :=
  [Event.connStart false, Event.dispatchExec j, Event.connStop false,
   Event.sleepEv (1 / 20)]

/-- Evaluation of the `execute_all_cells` loop with a live kernel: one
dispatch segment per code cell, in index order, and both counters equal the
number of code cells. -/
theorem execAllLoop_eq (env : Env) (s1 : ServerState) (ha : s1.kernelAlive = true) :
    ∀ (cs pre : List Cell), s1.cells = pre ++ cs →
      execAllLoop env s1 pre.length cs =
        ((codeIndicesFrom pre.length cs).length,
         (codeIndicesFrom pre.length cs).length,
         ((codeIndicesFrom pre.length cs).map dispatchSeg).flatten)
  | [], pre, hcells => by simp [execAllLoop, codeIndicesFrom]
  | c :: rest, pre, hcells => by
    have hlen : pre.length < s1.cells.length := by
      rw [hcells]; simp
    have hget : s1.cells.getD pre.length emptyCell = c := by
      rw [hcells]
      simp [List.getD_eq_getElem?_getD, List.getElem?_append_right (Nat.le_refl _)]
    have hpre2 : s1.cells = (pre ++ [c]) ++ rest := by
      rw [hcells]; simp
    have ih := execAllLoop_eq env s1 ha rest (pre ++ [c]) hpre2
    have hlen2 : (pre ++ [c]).length = pre.length + 1 := by simp
    rw [hlen2] at ih
    by_cases hc : c.cell_type == "code"
    · have h0' : (0 : Int) ≤ Int.ofNat pre.length := by
        have he : Int.ofNat pre.length = (pre.length : Int) := rfl
        rw [he]
        exact Int.natCast_nonneg _
      have h1' : Int.ofNat pre.length < (s1.cells.length : Int) := by
        have he : Int.ofNat pre.length = (pre.length : Int) := rfl
        rw [he]
        exact_mod_cast hlen
      have hcell : (s1.cells.getD (Int.ofNat pre.length).toNat emptyCell).cell_type =
          "code" := by
        have he : (Int.ofNat pre.length).toNat = pre.length := rfl
        rw [he, hget]
        exact beq_iff_eq.mp hc
      have hexec := execute_cell_alive_eq (Int.ofNat pre.length) env s1 ha h0' h1' hcell
      simp only [execAllLoop, hc, if_true, hexec, ih, codeIndicesFrom]
      simp [dispatchSeg]
    · simp only [execAllLoop, hc, if_false, ih, codeIndicesFrom]
      simp [hc]

theorem dispatchIdxs_segs : ∀ (idxs : List Nat),
    dispatchIdxs ((idxs.map dispatchSeg).flatten ++ [Event.connStop false]) = idxs
  | [] => rfl
  | j :: idxs => by
    simp only [List.map_cons, List.flatten_cons, List.cons_append, List.append_assoc]
    simpa [dispatchIdxs, dispatchSeg] using dispatchIdxs_segs idxs

/-- Claim C5: with an available kernel client, `execute_all_cells` emits
exactly one execution-dispatch per code cell, sequentially in increasing
index order, each inside its own read-only connection and followed by a
0.05-second sleep; non-code cells are skipped, and the success message
reports the number of code cells found, which equals the number of
dispatches sent. -/
theorem execute_all_cells_spec (env : Env) (s : ServerState)
    (h : s.kernelAlive = true ∨ env.restartOk = true) :
    (execute_all_cells env s).2.2 =
      (if s.kernelAlive then [] else [Event.sleepEv (1 / 2)]) ++
        Event.connStart false ::
          (((codeIndicesFrom 0 s.cells).map dispatchSeg).flatten ++
            [Event.connStop false]) ∧
    dispatchIdxs (execute_all_cells env s).2.2 = codeIndicesFrom 0 s.cells ∧
    List.Chain' (· < ·) (codeIndicesFrom 0 s.cells) ∧
    (execute_all_cells env s).1 =
      "Successfully sent execution requests for all " ++
        toString (codeIndicesFrom 0 s.cells).length ++ " code cells found." := by
  by_cases ha : s.kernelAlive
  · have hloop := execAllLoop_eq env s ha s.cells [] (by simp)
    simp only [List.length_nil] at hloop
    refine ⟨?_, ?_, codeIndicesFrom_chain s.cells 0, ?_⟩
    · simp [execute_all_cells, kernelEnsure, ha, withConn, hloop]
    · have htr : (execute_all_cells env s).2.2 =
          Event.connStart false ::
            (((codeIndicesFrom 0 s.cells).map dispatchSeg).flatten ++
              [Event.connStop false]) := by
        simp [execute_all_cells, kernelEnsure, ha, withConn, hloop]
      rw [htr]
      simpa [dispatchIdxs] using dispatchIdxs_segs (codeIndicesFrom 0 s.cells)
    · simp [execute_all_cells, kernelEnsure, ha, withConn, hloop]
  · have hr : env.restartOk = true := by
      rcases h with h | h
      · exact absurd h ha
      · exact h
    have ha2 : ({ s with kernelAlive := true } : ServerState).kernelAlive = true := rfl
    have hloop := execAllLoop_eq env { s with kernelAlive := true } ha2
      s.cells [] (by simp)
    simp only [List.length_nil] at hloop
    refine ⟨?_, ?_, codeIndicesFrom_chain s.cells 0, ?_⟩
    · simp [execute_all_cells, kernelEnsure, ha, hr, withConn, hloop]
    · have htr : (execute_all_cells env s).2.2 =
          Event.sleepEv (1 / 2) :: Event.connStart false ::
            (((codeIndicesFrom 0 s.cells).map dispatchSeg).flatten ++
              [Event.connStop false]) := by
        simp [execute_all_cells, kernelEnsure, ha, hr, withConn, hloop]
      rw [htr]
      simpa [dispatchIdxs] using dispatchIdxs_segs (codeIndicesFrom 0 s.cells)
    · simp [execute_all_cells, kernelEnsure, ha, hr, withConn, hloop]

/-- Witness for C5 on a three-cell notebook (code, markdown, code) with a
live kernel: dispatches go to cells 0 and 2 in order and the message counts
two code cells. -/
theorem execute_all_cells_spec_witness :
    dispatchIdxs (execute_all_cells { restartOk := false }
        { notebookPath := "notebook.ipynb",
          cells := [newCodeCell "a", newMarkdownCell "m", newCodeCell "b"],
          kernelAlive := true }).2.2 = [0, 2] ∧
    (execute_all_cells { restartOk := false }
        { notebookPath := "notebook.ipynb",
          cells := [newCodeCell "a", newMarkdownCell "m", newCodeCell "b"],
          kernelAlive := true }).1 =
      "Successfully sent execution requests for all 2 code cells found." := by
  have h := execute_all_cells_spec { restartOk := false }
    { notebookPath := "notebook.ipynb",
      cells := [newCodeCell "a", newMarkdownCell "m", newCodeCell "b"],
      kernelAlive := true } (Or.inl rfl)
  exact ⟨by rw [h.2.1]; decide, by rw [h.2.2.2]; decide⟩

/-! ### Claim C3: decimal digits of `Nat.repr` and the index parser -/

theorem digitChar_toNat (n : Nat) (h : n < 10) : (Nat.digitChar n).toNat - 48 = n := by
  interval_cases n <;> decide

theorem digitChar_isDigit (n : Nat) (h : n < 10) : (Nat.digitChar n).isDigit = true := by
  interval_cases n <;> decide

theorem toDigitsCore_append : ∀ (fuel n : Nat) (ds : List Char),
    Nat.toDigitsCore 10 fuel n ds = Nat.toDigitsCore 10 fuel n [] ++ ds
  | 0, n, ds => by simp [Nat.toDigitsCore]
  | fuel + 1, n, ds => by
    simp only [Nat.toDigitsCore]
    by_cases h : n / 10 = 0
    · simp [h]
    · simp only [h, if_false]
      rw [toDigitsCore_append fuel (n / 10) (Nat.digitChar (n % 10) :: ds),
        toDigitsCore_append fuel (n / 10) [Nat.digitChar (n % 10)]]
      simp

theorem toDigitsCore_length_ge : ∀ (fuel n : Nat) (ds : List Char),
    ds.length ≤ (Nat.toDigitsCore 10 fuel n ds).length
  | 0, _, _ => Nat.le_refl _
  | fuel + 1, n, ds => by
    simp only [Nat.toDigitsCore]
    by_cases h : n / 10 = 0
    · simp [h]
    · simp only [h, if_false]
      have := toDigitsCore_length_ge fuel (n / 10) (Nat.digitChar (n % 10) :: ds)
      simp at this
      omega

theorem toDigitsCore_ne_nil (fuel n : Nat) (h : 0 < fuel) :
    Nat.toDigitsCore 10 fuel n [] ≠ [] := by
  cases fuel with
  | zero => omega
  | succ fuel =>
    simp only [Nat.toDigitsCore]
    by_cases hz : n / 10 = 0
    · simp [hz]
    · simp only [hz, if_false]
      intro hnil
      have := toDigitsCore_length_ge fuel (n / 10) [Nat.digitChar (n % 10)]
      rw [hnil] at this
      simp at this

theorem toDigitsCore_all_digits : ∀ (fuel n : Nat) (ds : List Char),
    (∀ c ∈ ds, c.isDigit = true) →
    ∀ c ∈ Nat.toDigitsCore 10 fuel n ds, c.isDigit = true
  | 0, _, _, hds => hds
  | fuel + 1, n, ds, hds => by
    simp only [Nat.toDigitsCore]
    by_cases hz : n / 10 = 0
    · simp only [hz, if_true]
      intro c hc
      rcases List.mem_cons.mp hc with hc | hc
      · rw [hc]
        exact digitChar_isDigit _ (Nat.mod_lt _ (by norm_num))
      · exact hds c hc
    · simp only [hz, if_false]
      refine toDigitsCore_all_digits fuel (n / 10) _ ?_
      intro c hc
      rcases List.mem_cons.mp hc with hc | hc
      · rw [hc]
        exact digitChar_isDigit _ (Nat.mod_lt _ (by norm_num))
      · exact hds c hc

theorem digitsVal_append_single (l : List Char) (c : Char) :
    digitsVal (l ++ [c]) = digitsVal l * 10 + (c.toNat - 48) := by
  simp [digitsVal, List.foldl_append]

theorem digitsVal_toDigitsCore : ∀ (fuel n : Nat), n < fuel →
    digitsVal (Nat.toDigitsCore 10 fuel n []) = n
  | 0, n, h => absurd h (by omega)
  | fuel + 1, n, h => by
    simp only [Nat.toDigitsCore]
    by_cases hz : n / 10 = 0
    · have hn : n < 10 := by omega
      have hm : n % 10 = n := by omega
      have := digitChar_toNat (n % 10) (by omega)
      simp only [hz, if_true, digitsVal, List.foldl_cons, List.foldl_nil]
      omega
    · have h10 : n / 10 < fuel := by omega
      simp only [hz, if_false]
      rw [toDigitsCore_append fuel (n / 10) [Nat.digitChar (n % 10)],
        digitsVal_append_single, digitsVal_toDigitsCore fuel (n / 10) h10,
        digitChar_toNat (n % 10) (by omega)]
      omega

theorem natRepr_data (n : Nat) :
    (Nat.repr n).data = Nat.toDigitsCore 10 (n + 1) n [] := rfl

theorem natRepr_all_digits (n : Nat) : ∀ c ∈ (Nat.repr n).data, c.isDigit = true := by
  rw [natRepr_data]
  exact toDigitsCore_all_digits (n + 1) n [] (by simp)

theorem digitsVal_natRepr (n : Nat) : digitsVal (Nat.repr n).data = n := by
  rw [natRepr_data]
  exact digitsVal_toDigitsCore (n + 1) n (Nat.lt_succ_self n)

theorem natRepr_ne_nil (n : Nat) : (Nat.repr n).data ≠ [] := by
  rw [natRepr_data]
  exact toDigitsCore_ne_nil (n + 1) n (Nat.succ_pos n)

theorem takeWhile_append_digits : ∀ (l r : List Char), (∀ c ∈ l, c.isDigit = true) →
    (l ++ r).takeWhile Char.isDigit = l ++ r.takeWhile Char.isDigit
  | [], _, _ => rfl
  | c :: l, r, h => by
    simp only [List.cons_append, List.takeWhile_cons, h c (List.mem_cons_self c l),
      if_true]
    rw [takeWhile_append_digits l r (fun x hx => h x (List.mem_cons_of_mem c hx))]

/-- Scanning the fixed message prefix: no byte before its trailing
`index ` begins a match, so the scanner reduces to the digit test on the
tail. -/
theorem findIdxNum_prefix (t : List Char) :
    findIdxNum ('C' :: 'o' :: 'd' :: 'e' :: ' ' :: 'c' :: 'e' :: 'l' :: 'l' ::
        ' ' :: 'a' :: 'd' :: 'd' :: 'e' :: 'd' :: ' ' :: 'a' :: 't' :: ' ' ::
        'i' :: 'n' :: 'd' :: 'e' :: 'x' :: ' ' :: t) =
      (if (t.takeWhile Char.isDigit).isEmpty then findIdxNum t
       else some (digitsVal (t.takeWhile Char.isDigit))) := rfl

theorem findIdxNum_message (k : Nat) :
    findIdxNum (("Code cell added at index " ++ Nat.repr k ++ ".").data) = some k := by
  have h1 : ("Code cell added at index " ++ Nat.repr k ++ ".").data =
      'C' :: 'o' :: 'd' :: 'e' :: ' ' :: 'c' :: 'e' :: 'l' :: 'l' :: ' ' ::
        'a' :: 'd' :: 'd' :: 'e' :: 'd' :: ' ' :: 'a' :: 't' :: ' ' ::
        'i' :: 'n' :: 'd' :: 'e' :: 'x' :: ' ' :: ((Nat.repr k).data ++ ['.']) := by
    rw [String.data_append, String.data_append]
    rw [show ("Code cell added at index ").data =
        ['C','o','d','e',' ','c','e','l','l',' ','a','d','d','e','d',' ','a','t',' ',
         'i','n','d','e','x',' '] from rfl]
    rw [show (".").data = ['.'] from rfl]
    simp
  rw [h1, findIdxNum_prefix, takeWhile_append_digits _ _ (natRepr_all_digits k)]
  rw [show (['.'] : List Char).takeWhile Char.isDigit = [] from rfl, List.append_nil]
  have h4 : ((Nat.repr k).data).isEmpty = false := by
    simp [List.isEmpty_iff, natRepr_ne_nil k]
  rw [h4]
  simp [digitsVal_natRepr k]

/-- The `add_code_cell_on_bottom` result message parses back to the index
of the appended cell. -/
theorem parse_add_message (n : Nat) :
    _parse_index_from_message ("Code cell added at index " ++ toString n ++ ".") =
      some n := by
  rw [_parse_index_from_message, show toString n = Nat.repr n from rfl]
  exact findIdxNum_message n

theorem add_bottom_eq (code : String) (s : ServerState) :
    add_code_cell_on_bottom code s =
      ("Code cell added at index " ++ toString s.cells.length ++ ".",
       { s with cells := s.cells ++ [newCodeCell code] },
       [Event.connStart true, Event.cellsInsert s.cells.length,
        Event.sleepEv MODIFY_SYNC_DELAY, Event.connStop true]) := by
  simp [add_code_cell_on_bottom, withConn]

theorem delete_cell_eq (i : Int) (s : ServerState) (h0 : 0 ≤ i)
    (h1 : i < (s.cells.length : Int)) :
    delete_cell i s =
      ("Cell at index " ++ toString i ++ " deleted.",
       { s with cells := s.cells.eraseIdx i.toNat },
       [Event.connStart true, Event.txBegin, Event.cellsDelete i.toNat,
        Event.txEnd, Event.sleepEv MODIFY_SYNC_DELAY, Event.connStop true]) := by
  have hin : 0 ≤ i ∧ i < (s.cells.length : Int) := ⟨h0, h1⟩
  simp [delete_cell, hin, withConn]

theorem get_cell_output_state (i : Int) (w : ℚ) (s : ServerState) :
    (get_cell_output i w s).2.1 = s := by
  simp only [get_cell_output, withConn]
  repeat' split
  all_goals rfl

theorem getD_append_len {α : Type} : ∀ (l : List α) (x d : α),
    (l ++ [x]).getD l.length d = x
  | [], _, _ => rfl
  | c :: l, x, d => by
    simp only [List.cons_append, List.length_cons, List.getD_cons_succ]
    exact getD_append_len l x d

theorem execSuccessMsg_no_error (k : Nat) :
    strContains
      ("Execution request sent for cell at index " ++ toString (Int.ofNat k) ++ ".")
      "[Error" = false := by
  rw [strContains, show ("[Error").data = '[' :: ("Error").data from rfl]
  apply hasSubCs_false_of_head_notMem
  rw [show toString (Int.ofNat k) = Nat.repr k from rfl]
  simp only [String.data_append, List.mem_append]
  rintro ((h | h) | h)
  · exact absurd h (by decide)
  · have := natRepr_all_digits k '[' h
    simp [Char.isDigit] at this
  · exact absurd h (by decide)

theorem kernelFailMsg_has_error (i : Int) :
    strContains
      ("[Error: Kernel client connection failed for cell " ++ toString i ++ ".]")
      "[Error" = true :=
  strContains_append_left _ _ _ (strContains_append_left _ _ _ (by decide))

/-- Cell-array mutations plus execution dispatches: the observable notebook
operations of a temporary-cell run. -/
def isKeyOp : Event → Bool
  | Event.cellsInsert _ => true
  | Event.cellsDelete _ => true
  | Event.dispatchExec _ => true
  | _ => false
/-- `execute_cell` performs no CRDT cell-array mutation on any of its paths:
its trace holds only connection events, kernel-restart sleeps and the
execution dispatch. -/
theorem execute_cell_no_mut (i : Int) (env : Env) (s : ServerState) :
    (execute_cell i env s).2.2.filter isContainerMut = [] := by
  simp only [execute_cell, kernelEnsure, withConn]
  repeat' split
  all_goals simp [isContainerMut]

/-- `execute_cell` never changes the cell list (the dispatch is
fire-and-forget; only the kernel client may be rebuilt). -/
theorem execute_cell_cells (i : Int) (env : Env) (s : ServerState) :
    (execute_cell i env s).2.1.cells = s.cells := by
  simp only [execute_cell, kernelEnsure, withConn]
  repeat' split
  all_goals rfl

/-- Unfolding of `_run_temporary_code` on the path where the add step parses
and the execute step did not return an error string: the result is the output
read, the final state is the delete's state, and the trace is the four tools
composed with the `asyncio.sleep(wait_seconds)` between execute and read. -/
theorem run_temp_unfold_ok (code : String) (w : ℚ) (tn : String) (env : Env)
    (s : ServerState)
    (hp : _parse_index_from_message (add_code_cell_on_bottom code s).1 =
      some s.cells.length)
    (hne : strContains
      (execute_cell (Int.ofNat s.cells.length) env
        (add_code_cell_on_bottom code s).2.1).1 "[Error" = false) :
    _run_temporary_code code w tn env s =
      ((get_cell_output (Int.ofNat s.cells.length) 0
          (execute_cell (Int.ofNat s.cells.length) env
            (add_code_cell_on_bottom code s).2.1).2.1).1,
       (delete_cell (Int.ofNat s.cells.length)
          (get_cell_output (Int.ofNat s.cells.length) 0
            (execute_cell (Int.ofNat s.cells.length) env
              (add_code_cell_on_bottom code s).2.1).2.1).2.1).2.1,
       (add_code_cell_on_bottom code s).2.2 ++
         (execute_cell (Int.ofNat s.cells.length) env
           (add_code_cell_on_bottom code s).2.1).2.2 ++
         Event.sleepEv w ::
           ((get_cell_output (Int.ofNat s.cells.length) 0
               (execute_cell (Int.ofNat s.cells.length) env
                 (add_code_cell_on_bottom code s).2.1).2.1).2.2 ++
            (delete_cell (Int.ofNat s.cells.length)
               (get_cell_output (Int.ofNat s.cells.length) 0
                 (execute_cell (Int.ofNat s.cells.length) env
                   (add_code_cell_on_bottom code s).2.1).2.1).2.1).2.2)) := by
  simp only [_run_temporary_code, hp, hne]
  simp

/-- Unfolding of `_run_temporary_code` on the path where the execute step
returned an `[Error...]` string: the wait and the output read are skipped,
but the `finally` block still deletes the temporary cell, so the trace is
the add, execute and delete traces in order. -/
theorem run_temp_unfold_err (code : String) (w : ℚ) (tn : String) (env : Env)
    (s : ServerState)
    (hp : _parse_index_from_message (add_code_cell_on_bottom code s).1 =
      some s.cells.length)
    (he : strContains
      (execute_cell (Int.ofNat s.cells.length) env
        (add_code_cell_on_bottom code s).2.1).1 "[Error" = true) :
    (_run_temporary_code code w tn env s).2.2 =
      (add_code_cell_on_bottom code s).2.2 ++
        (execute_cell (Int.ofNat s.cells.length) env
          (add_code_cell_on_bottom code s).2.1).2.2 ++
        (delete_cell (Int.ofNat s.cells.length)
          (execute_cell (Int.ofNat s.cells.length) env
            (add_code_cell_on_bottom code s).2.1).2.1).2.2 := by
  simp only [_run_temporary_code, hp, he]
  simp

/-- **C3.** `_run_temporary_code` is the sequential composition of the four
already-defined tools `add_code_cell_on_bottom`, `execute_cell`, a wait of
`wait_seconds`, `get_cell_output` and the cleanup `delete_cell`, in that
order.  Concretely, for every input: (1) the add step always succeeds and
its message parses back to the index of the appended cell; (2) when the
execute step does not return an `[Error...]` string, the whole run equals
the four tools composed, with the `asyncio.sleep(wait_seconds)` between the
execute and the output read; (3) when the execute step does return an
`[Error...]` string, the wait and the read are skipped but the trace is
still add, execute, delete in order — the `finally` delete is attempted;
(4) in every case the CRDT cell-array mutations of the whole run are exactly
one insert of the temporary cell followed by one delete of that same cell:
the delete is attempted exactly once and there is no other notebook
mutation. -/
theorem run_temporary_code_spec (code : String) (w : ℚ) (tn : String)
    (env : Env) (s : ServerState) :
    _parse_index_from_message (add_code_cell_on_bottom code s).1 =
      some s.cells.length ∧
    (strContains
        (execute_cell (Int.ofNat s.cells.length) env
          (add_code_cell_on_bottom code s).2.1).1 "[Error" = false →
      _run_temporary_code code w tn env s =
        ((get_cell_output (Int.ofNat s.cells.length) 0
            (execute_cell (Int.ofNat s.cells.length) env
              (add_code_cell_on_bottom code s).2.1).2.1).1,
         (delete_cell (Int.ofNat s.cells.length)
            (get_cell_output (Int.ofNat s.cells.length) 0
              (execute_cell (Int.ofNat s.cells.length) env
                (add_code_cell_on_bottom code s).2.1).2.1).2.1).2.1,
         (add_code_cell_on_bottom code s).2.2 ++
           (execute_cell (Int.ofNat s.cells.length) env
             (add_code_cell_on_bottom code s).2.1).2.2 ++
           Event.sleepEv w ::
             ((get_cell_output (Int.ofNat s.cells.length) 0
                 (execute_cell (Int.ofNat s.cells.length) env
                   (add_code_cell_on_bottom code s).2.1).2.1).2.2 ++
              (delete_cell (Int.ofNat s.cells.length)
                 (get_cell_output (Int.ofNat s.cells.length) 0
                   (execute_cell (Int.ofNat s.cells.length) env
                     (add_code_cell_on_bottom code s).2.1).2.1).2.1).2.2))) ∧
    (strContains
        (execute_cell (Int.ofNat s.cells.length) env
          (add_code_cell_on_bottom code s).2.1).1 "[Error" = true →
      (_run_temporary_code code w tn env s).2.2 =
        (add_code_cell_on_bottom code s).2.2 ++
          (execute_cell (Int.ofNat s.cells.length) env
            (add_code_cell_on_bottom code s).2.1).2.2 ++
          (delete_cell (Int.ofNat s.cells.length)
            (execute_cell (Int.ofNat s.cells.length) env
              (add_code_cell_on_bottom code s).2.1).2.1).2.2) ∧
    (_run_temporary_code code w tn env s).2.2.filter isContainerMut =
      [Event.cellsInsert s.cells.length, Event.cellsDelete s.cells.length] := by
  have hp : _parse_index_from_message (add_code_cell_on_bottom code s).1 =
      some s.cells.length := by
    rw [add_bottom_eq]
    exact parse_add_message s.cells.length
  have hs1 : (add_code_cell_on_bottom code s).2.1 =
      { s with cells := s.cells ++ [newCodeCell code] } := by rw [add_bottom_eq]
  have haf : (add_code_cell_on_bottom code s).2.2.filter isContainerMut =
      [Event.cellsInsert s.cells.length] := by
    rw [add_bottom_eq]
    rfl
  have hef : (execute_cell (Int.ofNat s.cells.length) env
      (add_code_cell_on_bottom code s).2.1).2.2.filter isContainerMut = [] :=
    execute_cell_no_mut _ _ _
  have hecells : (execute_cell (Int.ofNat s.cells.length) env
      (add_code_cell_on_bottom code s).2.1).2.1.cells =
      s.cells ++ [newCodeCell code] := by
    rw [execute_cell_cells, hs1]
  have h0 : (0 : Int) ≤ Int.ofNat s.cells.length := Int.natCast_nonneg _
  have h1e : Int.ofNat s.cells.length <
      ((execute_cell (Int.ofNat s.cells.length) env
        (add_code_cell_on_bottom code s).2.1).2.1.cells.length : Int) := by
    rw [hecells]
    simp
  refine ⟨hp, ?_, ?_, ?_⟩
  · intro hE
    exact run_temp_unfold_ok code w tn env s hp hE
  · intro hE
    exact run_temp_unfold_err code w tn env s hp hE
  · cases hE : strContains
      (execute_cell (Int.ofNat s.cells.length) env
        (add_code_cell_on_bottom code s).2.1).1 "[Error"
    · rw [run_temp_unfold_ok code w tn env s hp hE]
      have hgs : (get_cell_output (Int.ofNat s.cells.length) 0
          (execute_cell (Int.ofNat s.cells.length) env
            (add_code_cell_on_bottom code s).2.1).2.1).2.1 =
          (execute_cell (Int.ofNat s.cells.length) env
            (add_code_cell_on_bottom code s).2.1).2.1 :=
        get_cell_output_state _ _ _
      have hgf : (get_cell_output (Int.ofNat s.cells.length) 0
          (execute_cell (Int.ofNat s.cells.length) env
            (add_code_cell_on_bottom code s).2.1).2.1).2.2.filter
          isContainerMut = [] := by
        rw [get_cell_output_trace]
        simp [isContainerMut]
      have hdf : (delete_cell (Int.ofNat s.cells.length)
          (get_cell_output (Int.ofNat s.cells.length) 0
            (execute_cell (Int.ofNat s.cells.length) env
              (add_code_cell_on_bottom code s).2.1).2.1).2.1).2.2.filter
          isContainerMut = [Event.cellsDelete s.cells.length] := by
        rw [hgs, delete_cell_eq _ _ h0 h1e]
        rfl
      simp only [List.filter_append, List.filter_cons, haf, hef, hgf, hdf]
      rfl
    · rw [run_temp_unfold_err code w tn env s hp hE]
      have hdf2 : (delete_cell (Int.ofNat s.cells.length)
          (execute_cell (Int.ofNat s.cells.length) env
            (add_code_cell_on_bottom code s).2.1).2.1).2.2.filter
          isContainerMut = [Event.cellsDelete s.cells.length] := by
        rw [delete_cell_eq _ _ h0 h1e]
        rfl
      simp only [List.filter_append, haf, hef, hdf2]
      rfl

end JupyterMCP
